import Mathlib

/-!
Verification of the weather-union-rs client library (src/lib.rs).

The development shallowly embeds the response-interpretation protocol
(`WeatherUnion::process_payload`) and the locality directory / identifier
layer (`LocalityId`, the `locality_id!` table) and proves the spec's
claims about them.

Modelling conventions:
- HTTP status codes are `Nat` (the source matches on `reqwest::StatusCode`
  constants 200/500/400/429/403 and keeps the raw code otherwise).
- `f64` measurement values are modelled as `Rat`: the interpreter only
  copies them verbatim (no arithmetic), so the embedding is exact.
- A decoded JSON document is the inductive `Json`; the text-level parser
  (`serde_json::from_str`) is an external collaborator, so the interpreter
  receives `Option Json` (`none` = body text is not valid JSON), and the
  struct-shape deserialisation of `BodyValues` (`#[derive(Deserialize)]`)
  is embedded as `BodyValues.fromJson`.
- `HashMap<String, Option<f64>>` is an insertion-ordered association list
  whose lookup takes the last binding for a key (matching HashMap insert
  overwrite on duplicate keys during deserialisation).
- Rust panics (`unwrap`) are modelled in the `*_src` variants by an
  `Option` layer: `none` is a panic.  The clean total interpreter
  `process_payload` is related to the panic-aware transcription by the
  refinement theorem for claim C5.
-/

/-- A decoded JSON value (what `serde_json` hands to the deserializer). -/
inductive Json where
  | null
  | bool (b : Bool)
  | num (q : Rat)
  | str (s : String)
  | arr (elems : List Json)
  | obj (fields : List (String × Json))

/-- Rust `struct BodyValues` from src/lib.rs lines 12-17: the raw response
shape `{ message: String, locality_weather_data: HashMap<String, Option<f64>>,
device_type: u8 }`. -/
structure BodyValues where
  message : String
  locality_weather_data : List (String × Option Rat)
  device_type : Nat
deriving Repr, DecidableEq

/-- Rust `struct LocalityWeatherData` from src/lib.rs lines 19-28 (the
WeatherRecord of the spec). -/
structure LocalityWeatherData where
  device : Nat
  temperature : Rat
  humidity : Rat
  wind_speed : Rat
  wind_direction : Rat
  rain_intensity : Rat
  rain_accumulation : Rat
deriving Repr, DecidableEq

/-- Rust `enum WeatherResponseError` from src/lib.rs lines 30-33. -/
inductive WeatherResponseError where
  | ErrorRetrievingData
  | NotSupported
  | ApiKeyLimitExhausted
  | CouldNotAuthenticate
  | TemporarilyUnavailable (msg : String)
  | UnknownError (status : Nat)
  | InvalidResponse
deriving Repr, DecidableEq

/-- Rust `HashMap::get`: the map was built by inserting the deserialised
entries in order, an insert overwriting any earlier binding of the same
key, so lookup returns the LAST binding of the key. -/
def hmGet (m : List (String × Option Rat)) (k : String) : Option (Option Rat) :=
  (m.reverse.find? (fun p => p.1 == k)).map Prod.snd

/-- serde struct field access: first occurrence of the field name in the
JSON object. -/
def getField (fields : List (String × Json)) (name : String) : Option Json :=
  (fields.find? (fun p => p.1 == name)).map Prod.snd

/-- Deserialise a JSON value as `Option<f64>`: `null` becomes `None`, a
number becomes `Some v`, anything else is a type error. -/
def valOpt : Json → Option (Option Rat)
  | Json.null => some none
  | Json.num q => some (some q)
  | _ => none

/-- Deserialise the fields of a JSON object as the entries of a
`HashMap<String, Option<f64>>`; any non-numeric non-null value fails the
whole parse. -/
def mapFromFields : List (String × Json) → Option (List (String × Option Rat))
  | [] => some []
  | (k, v) :: rest =>
    match valOpt v, mapFromFields rest with
    | some ov, some m => some ((k, ov) :: m)
    | _, _ => none

/-- Deserialise a JSON value as `HashMap<String, Option<f64>>`. -/
def jMap : Json → Option (List (String × Option Rat))
  | Json.obj fs => mapFromFields fs
  | _ => none

/-- Deserialise a JSON value as a Rust `String`. -/
def jStr : Json → Option String
  | Json.str s => some s
  | _ => none

/-- Deserialise a JSON value as `u8`: an integral number in `0..=255`. -/
def jU8 : Json → Option Nat
  | Json.num q => if q.den = 1 ∧ 0 ≤ q.num ∧ q.num ≤ 255 then some q.num.toNat else none
  | _ => none

/-- The deserializer `serde_json::from_str::<BodyValues>` after text-level parsing: the
derived deserializer requires a JSON object with a string `message`, a
numeric-or-null-valued object `locality_weather_data` and a `u8`
`device_type`; unknown top-level fields are ignored. -/
def BodyValues.fromJson (j : Json) : Option BodyValues :=
  match j with
  | Json.obj fields =>
    match getField fields "message", getField fields "locality_weather_data",
          getField fields "device_type" with
    | some mJ, some lJ, some dJ =>
      match jStr mJ, jMap lJ, jU8 dJ with
      | some msg, some lwd, some dt => some ⟨msg, lwd, dt⟩
      | _, _, _ => none
    | _, _, _ => none
  | _ => none

/-- One measurement field of the record: src/lib.rs lines 53-71,
`if m.get(name).is_some() && m.get(name).unwrap().is_some()
 { m.get(name).unwrap().unwrap() } else { 0.0 }`. -/
def measureField (m : List (String × Option Rat)) (name : String) : Rat :=
  match hmGet m name with
  | some (some v) => v
  | _ => 0

/-- Construction of the `LocalityWeatherData` record from a parsed body,
src/lib.rs lines 51-72. -/
def buildRecord (parsed : BodyValues) : LocalityWeatherData :=
  { device := parsed.device_type
    temperature := measureField parsed.locality_weather_data "temperature"
    humidity := measureField parsed.locality_weather_data "humidity"
    wind_speed := measureField parsed.locality_weather_data "wind_speed"
    wind_direction := measureField parsed.locality_weather_data "wind_direction"
    rain_intensity := measureField parsed.locality_weather_data "rain_intensity"
    rain_accumulation := measureField parsed.locality_weather_data "rain_accumulation" }

/-- The 200-branch after a successful parse, src/lib.rs lines 48-73:
non-empty `message` wins over record construction. -/
def process_parsed (parsed : BodyValues) : Except WeatherResponseError LocalityWeatherData :=
  if parsed.message ≠ "" then
    Except.error (WeatherResponseError.TemporarilyUnavailable parsed.message)
  else
    Except.ok (buildRecord parsed)

/-- Rust `WeatherUnion::process_payload`, src/lib.rs lines 41-95, as a total
function of the status code and the text-level JSON parse of the body
(`none` = the body text is not valid JSON). -/
def process_payload (status : Nat) (body : Option Json) : Except WeatherResponseError LocalityWeatherData :=
  if status = 200 then
    match body with
    | none => Except.error WeatherResponseError.InvalidResponse
    | some j =>
      match BodyValues.fromJson j with
      | none => Except.error WeatherResponseError.InvalidResponse
      | some parsed => process_parsed parsed
  else if status = 500 then Except.error WeatherResponseError.ErrorRetrievingData
  else if status = 400 then Except.error WeatherResponseError.NotSupported
  else if status = 429 then Except.error WeatherResponseError.ApiKeyLimitExhausted
  else if status = 403 then Except.error WeatherResponseError.CouldNotAuthenticate
  else Except.error (WeatherResponseError.UnknownError status)

/-! Panic-aware transcription of `process_payload`.

The source contains several `.unwrap()` calls.  The `*_src` functions
below transcribe the source line by line, with an `Option` layer in which
`none` models a Rust panic.  `reqwest::Response::text()` on a
materialised body decodes the bytes lossily (it cannot fail once the
bytes are in hand), so it is modelled by an arbitrary total decoding
function. -/

/-- The measurement expression as written, src/lib.rs lines 53-71: the
condition `get(n).is_some() && get(n).unwrap().is_some()` (the unwrap in
the right conjunct is reached only when the left conjunct holds, `&&`
being short-circuit), then `get(n).unwrap().unwrap()`; `none` models a
panic of one of the unguarded unwraps. -/
def measureField_src (m : List (String × Option Rat)) (name : String) : Option Rat :=
  if (hmGet m name).isSome &&
      (match hmGet m name with
       | some inner => inner.isSome
       | none => false) then
    match hmGet m name with
    | some (some v) => some v
    | _ => none
  else
    some 0

/-- Record construction with the panic layer, src/lib.rs lines 51-72. -/
def buildRecord_src (parsed : BodyValues) : Option LocalityWeatherData :=
  match measureField_src parsed.locality_weather_data "temperature",
        measureField_src parsed.locality_weather_data "humidity",
        measureField_src parsed.locality_weather_data "wind_speed",
        measureField_src parsed.locality_weather_data "wind_direction",
        measureField_src parsed.locality_weather_data "rain_intensity",
        measureField_src parsed.locality_weather_data "rain_accumulation" with
  | some t, some h, some ws, some wd, some ri, some ra =>
    some ⟨parsed.device_type, t, h, ws, wd, ri, ra⟩
  | _, _, _, _, _, _ => none

/-- The function `process_payload` transcribed with the panic layer, src/lib.rs lines
41-95.  `text` is the (total, lossy) byte-to-text decoding performed by
`payload.text()`; `parse` is the text level of `serde_json::from_str`
(`none` = parse error).  The source's
`if from_str(..).is_ok() { from_str(..).unwrap() } else { return Err(InvalidResponse) }`
is the guarded match; the `none` arm under the `isSome` guard models the
panic of that `unwrap`. -/
def process_payload_src (text : List Nat → String) (parse : String → Option Json)
    (status : Nat) (rawBody : List Nat) :
    Option (Except WeatherResponseError LocalityWeatherData) :=
  if status = 200 then
    let body : String := text rawBody
    if ((parse body).bind BodyValues.fromJson).isSome then
      match (parse body).bind BodyValues.fromJson with
      | some parsed =>
        if parsed.message ≠ "" then
          some (Except.error (WeatherResponseError.TemporarilyUnavailable parsed.message))
        else
          (buildRecord_src parsed).map Except.ok
      | none => none
    else
      some (Except.error WeatherResponseError.InvalidResponse)
  else if status = 500 then some (Except.error WeatherResponseError.ErrorRetrievingData)
  else if status = 400 then some (Except.error WeatherResponseError.NotSupported)
  else if status = 429 then some (Except.error WeatherResponseError.ApiKeyLimitExhausted)
  else if status = 403 then some (Except.error WeatherResponseError.CouldNotAuthenticate)
  else some (Except.error (WeatherResponseError.UnknownError status))

/-! Locality directory and identifier layer. -/

/-- Rust `struct LocalityId(&'static str)`, src/lib.rs line 127. -/
structure LocalityId where
  code : String
deriving Repr, DecidableEq

/-- Rust `struct InvalidLocalityId`, src/lib.rs lines 129-136: a single error
kind carrying no data. -/
structure InvalidLocalityId where
deriving Repr, DecidableEq

/-- The embedded directory: the `locality_id!` invocation, src/lib.rs
lines 212-792, one `(code, display_name, latitude, longitude)` entry per
`($str, $konst, $area, $lat_long);` row, in source order. -/
def localityTable : List (String × String × Rat × Rat) := [
  ("ZWL005764", "Delhi NCR Sarita Vihar", mkRat 28531759 1000000, mkRat 77293973 1000000),
  ("ZWL008752", "Delhi NCR Faridabad Sector 41-50", mkRat 28460895 1000000, mkRat 77304764 1000000),
  ("ZWL005996", "Delhi NCR New Friends Colony", mkRat 28565268 1000000, mkRat 77274971 1000000),
  ("ZWL005243", "Delhi NCR Sector 26 (Noida)", mkRat 28574404 1000000, mkRat 77334178 1000000),
  ("ZWL009032", "Delhi NCR New Industrial Town", mkRat 28375702 1000000, mkRat 77299442 1000000),
  ("ZWL005428", "Delhi NCR Tilak Nagar", mkRat 28641372 1000000, mkRat 77094689 1000000),
  ("ZWL001073", "Delhi NCR Sector 10, Gurgaon", mkRat 28436077 1000000, mkRat 76996757 1000000),
  ("ZWL001319", "Delhi NCR Ashok Vihar, Delhi", mkRat 28684453 1000000, mkRat 77174418 1000000),
  ("ZWL004800", "Delhi NCR Kalkaji", mkRat 28529029 1000000, mkRat 77258939 1000000),
  ("ZWL003118", "Delhi NCR Sector 53", mkRat 28442743 1000000, mkRat 77104379 1000000),
  ("ZWL002091", "Delhi NCR Sector 49", mkRat 28408012 1000000, mkRat 77050064 1000000),
  ("ZWL002662", "Delhi NCR Vasundhara", mkRat 28665225 1000000, mkRat 77366782 1000000),
  ("ZWL001404", "Delhi NCR Rajinder Nagar", mkRat 28640732 1000000, mkRat 77182900 1000000),
  ("ZWL008963", "Delhi NCR Safdarjung Enclave", mkRat 28562608 1000000, mkRat 77191457 1000000),
  ("ZWL006538", "Delhi NCR Connaught Place", mkRat 28630630 1000000, mkRat 77220640 1000000),
  ("ZWL003075", "Delhi NCR Sector 66", mkRat 28380856 1000000, mkRat 77062751 1000000),
  ("ZWL003721", "Delhi NCR Sector 57", mkRat 28422100 1000000, mkRat 77082740 1000000),
  ("ZWL006396", "Delhi NCR Moti Bagh, Delhi", mkRat 28575774 1000000, mkRat 77180697 1000000),
  ("ZWL004535", "Delhi NCR Patel Nagar, Delhi", mkRat 28652848 1000000, mkRat 77167909 1000000),
  ("ZWL008554", "Delhi NCR Greater Noida", mkRat 28456171 1000000, mkRat 77521577 1000000),
  ("ZWL004533", "Delhi NCR Karkardooma, Delhi", mkRat 28656829 1000000, mkRat 77310553 1000000),
  ("ZWL002179", "Delhi NCR Tigaon", mkRat 28417120 1000000, mkRat 77412569 1000000),
  ("ZWL007487", "Delhi NCR Sector 50 (Noida)", mkRat 28569103 1000000, mkRat 77364876 1000000),
  ("ZWL007120", "Delhi NCR Vasant Kunj, Delhi", mkRat 28524633 1000000, mkRat 77151206 1000000),
  ("ZWL007486", "Delhi NCR Dwarka, Delhi", mkRat 28594467 1000000, mkRat 77047747 1000000),
  ("ZWL006287", "Delhi NCR Sector 15", mkRat 28457927 1000000, mkRat 77034816 1000000),
  ("ZWL002146", "Delhi NCR Mayur Vihar Phase III", mkRat 28606000 1000000, mkRat 77323675 1000000),
  ("ZWL008405", "Delhi NCR Crossing Republik", mkRat 28635043 1000000, mkRat 77419056 1000000),
  ("ZWL004455", "Delhi NCR Sector 28", mkRat 28473457 1000000, mkRat 77087532 1000000),
  ("ZWL005087", "Delhi NCR Palam Vihar, Gurgaon", mkRat 28508782 1000000, mkRat 77033506 1000000),
  ("ZWL009648", "Delhi NCR Sector 63 (Noida)", mkRat 28621672 1000000, mkRat 77386474 1000000),
  ("ZWL008317", "Delhi NCR Raj Nagar, Ghaziabad", mkRat 28689174 1000000, mkRat 77428976 1000000),
  ("ZWL005878", "Delhi NCR Sector 128", mkRat 28526706 1000000, mkRat 77354868 1000000),
  ("ZWL003241", "Delhi NCR Sector 56, Gurgaon", mkRat 28418235 1000000, mkRat 77101860 1000000),
  ("ZWL007224", "Delhi NCR Indirapuram", mkRat 28644059 1000000, mkRat 77373883 1000000),
  ("ZWL009834", "Delhi NCR Malviya Nagar", mkRat 28536048 1000000, mkRat 77213453 1000000),
  ("ZWL007284", "Delhi NCR Sector 43, Gurgaon", mkRat 28454416 1000000, mkRat 77088820 1000000),
  ("ZWL006738", "Delhi NCR Sector 120 (Noida)", mkRat 28586854 1000000, mkRat 77390832 1000000),
  ("ZWL007329", "Delhi NCR Saket", mkRat 28523171 1000000, mkRat 77207543 1000000),
  ("ZWL001752", "Delhi NCR Sector 18 (Noida)", mkRat 28568937 1000000, mkRat 77324414 1000000),
  ("ZWL007594", "Delhi NCR Naraina", mkRat 28627479 1000000, mkRat 77142115 1000000),
  ("ZWL006116", "Delhi NCR Patparganj", mkRat 28632961 1000000, mkRat 77308344 1000000),
  ("ZWL009925", "Delhi NCR Ghitorni", mkRat 28486412 1000000, mkRat 77125366 1000000),
  ("ZWL009335", "Delhi NCR Faridabad Sector 1-11", mkRat 28365131 1000000, mkRat 77326157 1000000),
  ("ZWL009638", "Delhi NCR Sector 24", mkRat 28497419 1000000, mkRat 77090980 1000000),
  ("ZWL005670", "Delhi NCR Rajouri Garden", mkRat 28646438 1000000, mkRat 77122357 1000000),
  ("ZWL003757", "Delhi NCR Vishnu Garden", mkRat 28646933 1000000, mkRat 77095064 1000000),
  ("ZWL003610", "Delhi NCR Sector 48, Gurgaon", mkRat 28416008 1000000, mkRat 77032164 1000000),
  ("ZWL005971", "Delhi NCR Kirti Nagar", mkRat 28654433 1000000, mkRat 77142367 1000000),
  ("ZWL003626", "Delhi NCR Faridabad Sector 81-89", mkRat 28397247 1000000, mkRat 77345569 1000000),
  ("ZWL005876", "Delhi NCR GK I", mkRat 28550911 1000000, mkRat 77235272 1000000),
  ("ZWL006295", "Delhi NCR Mohan Estate", mkRat 28494788 1000000, mkRat 77312727 1000000),
  ("ZWL007653", "Delhi NCR Mukherjee Nagar", mkRat 28702971 1000000, mkRat 77209740 1000000),
  ("ZWL006697", "Delhi NCR Mehrauli", mkRat 28524426 1000000, mkRat 77183996 1000000),
  ("ZWL003259", "Delhi NCR Burari", mkRat 28753669 1000000, mkRat 77191037 1000000),
  ("ZWL004759", "Delhi NCR Gaur city, Ghaziabad", mkRat 28607703 1000000, mkRat 77434385 1000000),
  ("ZWL004477", "Delhi NCR GK II", mkRat 28533936 1000000, mkRat 77243800 1000000),
  ("ZWL005077", "Delhi NCR Rohini", mkRat 28723712 1000000, mkRat 77104596 1000000),
  ("ZWL008191", "Delhi NCR Rangpuri", mkRat 28533976 1000000, mkRat 77119516 1000000),
  ("ZWL006092", "Delhi NCR Sector 46", mkRat 28438586 1000000, mkRat 77060773 1000000),
  ("ZWL001549", "Delhi NCR Sector 62 (Noida)", mkRat 28611088 1000000, mkRat 77369652 1000000),
  ("ZWL001036", "Delhi NCR Shalimar Bagh", mkRat 28720312 1000000, mkRat 77164849 1000000),
  ("ZWL006996", "Delhi NCR Model Town", mkRat 28717232 1000000, mkRat 77194643 1000000),
  ("ZWL007566", "Delhi NCR Faridabad Sector 16-20", mkRat 28422437 1000000, mkRat 77310113 1000000),
  ("ZWL009852", "Delhi NCR Sector 2 (Noida)", mkRat 28581459 1000000, mkRat 77316720 1000000),
  ("ZWL008648", "Delhi NCR Govindpuram", mkRat 28689317 1000000, mkRat 77486930 1000000),
  ("ZWL009728", "Delhi NCR Gwal Pahari", mkRat 28435122 1000000, mkRat 77136308 1000000),
  ("ZWL006868", "Delhi NCR Nehru Nagar", mkRat 28653441 1000000, mkRat 77449969 1000000),
  ("ZWL002067", "Delhi NCR Chittaranjan Park", mkRat 28537530 1000000, mkRat 77249070 1000000),
  ("ZWL008791", "Delhi NCR IMT Manesar", mkRat 28384492 1000000, mkRat 76941950 1000000),
  ("ZWL003043", "Delhi NCR Sector 73 Z Kitchen", mkRat 28580105 1000000, mkRat 77385436 1000000),
  ("ZWL004159", "Delhi NCR Sector 51", mkRat 28430042 1000000, mkRat 77065213 1000000),
  ("ZWL005960", "Delhi NCR Ballabhgarh", mkRat 28343049 1000000, mkRat 77330317 1000000),
  ("ZWL009293", "Delhi NCR Nangloi", mkRat 28659524 1000000, mkRat 77060800 1000000),
  ("ZWL001663", "Delhi NCR Uttam Nagar", mkRat 28616774 1000000, mkRat 77057136 1000000),
  ("ZWL005762", "Delhi NCR Sector 47", mkRat 28424524 1000000, mkRat 77050065 1000000),
  ("ZWL005345", "Delhi NCR Paharganj", mkRat 28645112 1000000, mkRat 77212824 1000000),
  ("ZWL008225", "Delhi NCR Sector 25", mkRat 28484268 1000000, mkRat 77084693 1000000),
  ("ZWL001933", "Delhi NCR Pitampura", mkRat 28688724 1000000, mkRat 77138225 1000000),
  ("ZWL003591", "Delhi NCR Shahdara", mkRat 28688657 1000000, mkRat 77278267 1000000),
  ("ZWL007061", "Delhi NCR Sector 31", mkRat 28442946 1000000, mkRat 77057195 1000000),
  ("ZWL008476", "Delhi NCR Sector 23", mkRat 28509080 1000000, mkRat 77057138 1000000),
  ("ZWL009008", "Delhi NCR Sector 12 (Noida)", mkRat 28599952 1000000, mkRat 77343188 1000000),
  ("ZWL005323", "Delhi NCR Mayur Vihar Phase II", mkRat 28613695 1000000, mkRat 77302775 1000000),
  ("ZWL001412", "Delhi NCR Faridabad Sector 12-15", mkRat 28394334 1000000, mkRat 77324016 1000000),
  ("ZWL005925", "Delhi NCR DLF PHASE 1 (SECTOR 26)", mkRat 28477910 1000000, mkRat 77103843 1000000),
  ("ZWL008716", "Delhi NCR Laxmi Nagar", mkRat 28627366 1000000, mkRat 77279200 1000000),
  ("ZWL009339", "Delhi NCR Karol Bagh", mkRat 28647924 1000000, mkRat 77190463 1000000),
  ("ZWL009096", "Delhi NCR Chhatarpur", mkRat 28497203 1000000, mkRat 77171629 1000000),
  ("ZWL006720", "Delhi NCR Paschim Vihar", mkRat 28665591 1000000, mkRat 77098478 1000000),
  ("ZWL002908", "Delhi NCR Sector 1, Noida", mkRat 28573663 1000000, mkRat 77415427 1000000),
  ("ZWL001186", "Delhi NCR South Extension I", mkRat 28578498 1000000, mkRat 77223627 1000000),
  ("ZWL004789", "Delhi NCR Sector 18", mkRat 28495291 1000000, mkRat 77069729 1000000),
  ("ZWL008978", "Delhi NCR Kamla Nagar", mkRat 28676018 1000000, mkRat 77208446 1000000),
  ("ZWL007903", "Delhi NCR Janakpuri", mkRat 28623431 1000000, mkRat 77097814 1000000),
  ("ZWL008897", "Delhi NCR Vikaspuri", mkRat 28645655 1000000, mkRat 77065922 1000000),
  ("ZWL007431", "Delhi NCR Najafgarh", mkRat 28607458 1000000, mkRat 76995980 1000000),
  ("ZWL001112", "Delhi NCR Mayur Vihar Phase 1", mkRat 28609961 1000000, mkRat 77296133 1000000),
  ("ZWL008649", "Delhi NCR Sez Noida 1", mkRat 28507448 1000000, mkRat 77410089 1000000),
  ("ZWL006384", "Delhi NCR Gulavali, Noida", mkRat 28436941 1000000, mkRat 77456903 1000000),
  ("ZWL007840", "Delhi NCR Sector 14", mkRat 28471738 1000000, mkRat 77045472 1000000),
  ("ZWL002072", "Delhi NCR Sector 76(Noida)", mkRat 28570828 1000000, mkRat 77390429 1000000),
  ("ZWL003077", "Delhi NCR Green Park", mkRat 28562981 1000000, mkRat 77209729 1000000),
  ("ZWL005395", "Delhi NCR Munirka", mkRat 28554395 1000000, mkRat 77172547 1000000),
  ("ZWL005729", "Delhi NCR NEHRU PLACE", mkRat 28555622 1000000, mkRat 77250890 1000000),
  ("ZWL005736", "Delhi NCR Lajpat Nagar", mkRat 28565415 1000000, mkRat 77247221 1000000),
  ("ZWL007212", "Delhi NCR Sector 52 (Noida)", mkRat 28595742 1000000, mkRat 77362995 1000000),
  ("ZWL004803", "Delhi NCR Sector 100 (Noida)", mkRat 28547583 1000000, mkRat 77370951 1000000),
  ("ZWL003444", "Delhi NCR Sector 50", mkRat 28418947 1000000, mkRat 77059581 1000000),
  ("ZWL008293", "Delhi NCR Dilshad Garden", mkRat 28684684 1000000, mkRat 77320986 1000000),
  ("ZWL007308", "Delhi NCR Sector 29, Gurgaon", mkRat 28459498 1000000, mkRat 77061046 1000000),
  ("ZWL008219", "Delhi NCR SUSHANT LOK 1", mkRat 28467923 1000000, mkRat 77076530 1000000),
  ("ZWL006234", "Delhi NCR SAHIBABAD", mkRat 28682920 1000000, mkRat 77362827 1000000),
  ("ZWL007666", "Delhi NCR Sector 45 (Noida)", mkRat 28555596 1000000, mkRat 77345713 1000000),
  ("ZWL002490", "Delhi NCR Sector 84", mkRat 28395433 1000000, mkRat 76967436 1000000),
  ("ZWL007138", "Delhi NCR Sector 7, Gurgaon", mkRat 28476288 1000000, mkRat 77013365 1000000),
  ("ZWL009706", "Delhi NCR Sector 27", mkRat 28465260 1000000, mkRat 77085742 1000000),
  ("ZWL001267", "Delhi NCR Hauz Khas", mkRat 28551132 1000000, mkRat 77211401 1000000),
  ("ZWL003552", "Delhi NCR Jangpura", mkRat 28583630 1000000, mkRat 77246915 1000000),
  ("ZWL008401", "Delhi NCR Sector 52, Gurgaon", mkRat 28443858 1000000, mkRat 77083991 1000000),
  ("ZWL001758", "Delhi NCR Vaishali, Ghaziabad", mkRat 28649375 1000000, mkRat 77336609 1000000),
  ("ZWL003128", "Kolkata Shibpur", mkRat 22578477 1000000, mkRat 88315675 1000000),
  ("ZWL004322", "Kolkata Kalyani 1, Kolkata", mkRat 22983813 1000000, mkRat 88427417 1000000),
  ("ZWL002495", "Kolkata Bansdroni", mkRat 22472208 1000000, mkRat 88357875 1000000),
  ("ZWL009257", "Kolkata Bow Barracks", mkRat 22565476 1000000, mkRat 88360918 1000000),
  ("ZWL005435", "Kolkata Baranagar, Kolkata", mkRat 22660464 1000000, mkRat 88374255 1000000),
  ("ZWL007041", "Kolkata Sonarpur, Kolkata", mkRat 22432033 1000000, mkRat 88408369 1000000),
  ("ZWL002918", "Kolkata Ballygunge", mkRat 22532686 1000000, mkRat 88362677 1000000),
  ("ZWL003388", "Kolkata Sinthi, Kolkata", mkRat 22627697 1000000, mkRat 88380719 1000000),
  ("ZWL008806", "Kolkata Salt Lake 2", mkRat 22583560 1000000, mkRat 88432176 1000000),
  ("ZWL008635", "Kolkata Alipore", mkRat 22536626 1000000, mkRat 88331142 1000000),
  ("ZWL002312", "Kolkata Baguihati", mkRat 22614990 1000000, mkRat 88426184 1000000),
  ("ZWL001499", "Kolkata South Dum Dum", mkRat 22621570 1000000, mkRat 88408915 1000000),
  ("ZWL003315", "Kolkata Purba Barisha", mkRat 22474612 1000000, mkRat 88320775 1000000),
  ("ZWL003794", "Kolkata Jadavpur", mkRat 22498720 1000000, mkRat 88362540 1000000),
  ("ZWL006574", "Kolkata Tollygunge", mkRat 22498620 1000000, mkRat 88351732 1000000),
  ("ZWL004138", "Kolkata Shyam Bazar", mkRat 22594302 1000000, mkRat 88377284 1000000),
  ("ZWL009022", "Kolkata Behala", mkRat 22488571 1000000, mkRat 88306630 1000000),
  ("ZWL003271", "Kolkata Chandannagar, Kolkata", mkRat 22865442 1000000, mkRat 88367339 1000000),
  ("ZWL003951", "Kolkata Barrackpore", mkRat 22766771 1000000, mkRat 88361552 1000000),
  ("ZWL003915", "Kolkata East Kolkata Township", mkRat 22512832 1000000, mkRat 88399411 1000000),
  ("ZWL006750", "Kolkata Bhowanipore", mkRat 22526436 1000000, mkRat 88343904 1000000),
  ("ZWL008828", "Kolkata Elgin", mkRat 22543063 1000000, mkRat 88356096 1000000),
  ("ZWL008426", "Kolkata Howrah", mkRat 22604678 1000000, mkRat 88342218 1000000),
  ("ZWL007323", "Kolkata New Alipore", mkRat 22506135 1000000, mkRat 88332770 1000000),
  ("ZWL006266", "Kolkata Barasat", mkRat 22735727 1000000, mkRat 88490498 1000000),
  ("ZWL008393", "Kolkata New Town (kolkata)", mkRat 22588818 1000000, mkRat 88457964 1000000),
  ("ZWL007966", "Kolkata Uttarpara", mkRat 22692420 1000000, mkRat 88342900 1000000),
  ("ZWL001039", "Kolkata Santoshpur", mkRat 22502107 1000000, mkRat 88388897 1000000),
  ("ZWL003882", "Kolkata Liluah", mkRat 22635342 1000000, mkRat 88343314 1000000),
  ("ZWL004925", "Kolkata Rajarhat", mkRat 22621505 1000000, mkRat 88446915 1000000),
  ("ZWL005244", "Kolkata Park Street area", mkRat 22552632 1000000, mkRat 88362888 1000000),
  ("ZWL003687", "Kolkata Baghajatin Colony", mkRat 22481243 1000000, mkRat 88374932 1000000),
  ("ZWL008120", "Kolkata Shrirampur", mkRat 22735733 1000000, mkRat 88344597 1000000),
  ("ZWL007514", "Kolkata Chhota Jagulia", mkRat 22759573 1000000, mkRat 88747215 1000000),
  ("ZWL003935", "Kolkata Dum Dum", mkRat 22656310 1000000, mkRat 88423694 1000000),
  ("ZWL002931", "Kolkata Kestopur", mkRat 22597524 1000000, mkRat 88431114 1000000),
  ("ZWL006521", "Kolkata Sodepur", mkRat 22701254 1000000, mkRat 88383329 1000000),
  ("ZWL005558", "Kolkata Nimta", mkRat 22670256 1000000, mkRat 88413503 1000000),
  ("ZWL005174", "Kolkata Shapoorji", mkRat 22567623 1000000, mkRat 88497427 1000000),
  ("ZWL002488", "Kolkata Barabazar Market", mkRat 22574220 1000000, mkRat 88366682 1000000),
  ("ZWL007934", "Kolkata Salt Lake 1", mkRat 22573829 1000000, mkRat 88412814 1000000),
  ("ZWL001584", "Kolkata Tangra", mkRat 22555059 1000000, mkRat 88388175 1000000),
  ("ZWL005429", "Kolkata Gariahat", mkRat 22514492 1000000, mkRat 88362000 1000000),
  ("ZWL005121", "Kolkata Santragachi", mkRat 22621044 1000000, mkRat 88283605 1000000),
  ("ZWL007830", "Kolkata Garia", mkRat 22469249 1000000, mkRat 88382261 1000000),
  ("ZWL008991", "Kolkata Chinsurah, Kolkata", mkRat 22933551 1000000, mkRat 88398649 1000000),
  ("ZWL009194", "Kolkata Kankurgachi", mkRat 22573467 1000000, mkRat 88391666 1000000),
  ("ZWL004722", "Kolkata Kasba", mkRat 22521693 1000000, mkRat 88389844 1000000),
  ("ZWL006536", "Mumbai Mira Road East", mkRat 19278130 1000000, mkRat 72874722 1000000),
  ("ZWL004934", "Mumbai Kandivali West", mkRat 19212156 1000000, mkRat 72828850 1000000),
  ("ZWL004821", "Mumbai Boisar, Mumbai", mkRat 19804797 1000000, mkRat 72745805 1000000),
  ("ZWL007249", "Mumbai Bhiwandi", mkRat 19251790 1000000, mkRat 73087318 1000000),
  ("ZWL001164", "Mumbai Panvel", mkRat 18998845 1000000, mkRat 73108933 1000000),
  ("ZWL009537", "Mumbai Kopar Khairane (Navi Mumbai)", mkRat 19113909 1000000, mkRat 73012598 1000000),
  ("ZWL007275", "Mumbai Vashi", mkRat 19067662 1000000, mkRat 73004987 1000000),
  ("ZWL002556", "Mumbai Titwala, Mumbai", mkRat 19292555 1000000, mkRat 73205899 1000000),
  ("ZWL006937", "Mumbai Kandivali East", mkRat 19200730 1000000, mkRat 72865461 1000000),
  ("ZWL008636", "Mumbai Nalasopara", mkRat 19424433 1000000, mkRat 72817134 1000000),
  ("ZWL003995", "Mumbai Lower Parel", mkRat 19005114 1000000, mkRat 72820143 1000000),
  ("ZWL006938", "Mumbai Goregaon East", mkRat 19163093 1000000, mkRat 72872277 1000000),
  ("ZWL008550", "Mumbai Santacruz East", mkRat 19076131 1000000, mkRat 72858715 1000000),
  ("ZWL004494", "Mumbai Ghatkopar East, Mumbai", mkRat 19080794 1000000, mkRat 72922280 1000000),
  ("ZWL003708", "Mumbai Palava", mkRat 19168067 1000000, mkRat 73074612 1000000),
  ("ZWL008711", "Mumbai Malad West", mkRat 19187022 1000000, mkRat 72827076 1000000),
  ("ZWL005991", "Mumbai Borivali East", mkRat 19241003 1000000, mkRat 72865970 1000000),
  ("ZWL002865", "Mumbai Kalyan,West,Mumbai", mkRat 19255127 1000000, mkRat 73128176 1000000),
  ("ZWL004749", "Mumbai Santacruz West", mkRat 19082610 1000000, mkRat 72835608 1000000),
  ("ZWL001274", "Mumbai Badlapur, Mumbai", mkRat 19174156 1000000, mkRat 73225767 1000000),
  ("ZWL007699", "Mumbai Ambernath", mkRat 19199776 1000000, mkRat 73181176 1000000),
  ("ZWL001764", "Mumbai Marine lines", mkRat 18952178 1000000, mkRat 72825198 1000000),
  ("ZWL002921", "Mumbai Mulund West", mkRat 19170765 1000000, mkRat 72942239 1000000),
  ("ZWL001410", "Mumbai Airoli", mkRat 19170339 1000000, mkRat 72995114 1000000),
  ("ZWL009757", "Mumbai Kharghar (Navi Mumbai)", mkRat 19069735 1000000, mkRat 73055883 1000000),
  ("ZWL002059", "Mumbai Ulhasnagar (Mumbai)", mkRat 19224136 1000000, mkRat 73169340 1000000),
  ("ZWL001058", "Mumbai Ghatkopar West, Mumbai", mkRat 19096740 1000000, mkRat 72904562 1000000),
  ("ZWL006995", "Mumbai Bandra West", mkRat 19068857 1000000, mkRat 72833000 1000000),
  ("ZWL004692", "Mumbai Dadar West", mkRat 19021199 1000000, mkRat 72835378 1000000),
  ("ZWL007667", "Mumbai Andheri West", mkRat 19137106 1000000, mkRat 72834828 1000000),
  ("ZWL009338", "Mumbai Vile Parle West", mkRat 19109560 1000000, mkRat 72832194 1000000),
  ("ZWL009167", "Mumbai Byculla", mkRat 18974283 1000000, mkRat 72833712 1000000),
  ("ZWL006032", "Mumbai Vasai", mkRat 19364358 1000000, mkRat 72836612 1000000),
  ("ZWL007397", "Mumbai Kalyan,East (Mumbai)", mkRat 19221503 1000000, mkRat 73138111 1000000),
  ("ZWL009360", "Mumbai Ulwe, Mumbai", mkRat 18974217 1000000, mkRat 73024914 1000000),
  ("ZWL002205", "Mumbai Fort", mkRat 18940613 1000000, mkRat 72834235 1000000),
  ("ZWL008975", "Mumbai Andheri East", mkRat 19108639 1000000, mkRat 72874437 1000000),
  ("ZWL009252", "Mumbai Chembur", mkRat 19049840 1000000, mkRat 72907847 1000000),
  ("ZWL002558", "Mumbai Palghar, Mumbai", mkRat 19700631 1000000, mkRat 72763031 1000000),
  ("ZWL002742", "Mumbai Mumbra, Mumbai", mkRat 19172636 1000000, mkRat 73023715 1000000),
  ("ZWL004971", "Mumbai Mulund East", mkRat 19154253 1000000, mkRat 72962493 1000000),
  ("ZWL008348", "Mumbai Shirdhon, Mumbai", mkRat 19195881 1000000, mkRat 73128886 1000000),
  ("ZWL001344", "Mumbai Virar", mkRat 19461784 1000000, mkRat 72799199 1000000),
  ("ZWL007606", "Mumbai Tardeo", mkRat 18961317 1000000, mkRat 72805513 1000000),
  ("ZWL005697", "Mumbai Bandra East", mkRat 19064138 1000000, mkRat 72852737 1000000),
  ("ZWL005442", "Mumbai Thane West", mkRat 19227309 1000000, mkRat 72972736 1000000),
  ("ZWL004189", "Mumbai Kurla West", mkRat 19079972 1000000, mkRat 72881537 1000000),
  ("ZWL005000", "Mumbai Goregaon West", mkRat 19162722 1000000, mkRat 72841610 1000000),
  ("ZWL002056", "Mumbai Hiranandani Estate", mkRat 19267411 1000000, mkRat 72967074 1000000),
  ("ZWL009826", "Mumbai Dombivli", mkRat 19210229 1000000, mkRat 73102272 1000000),
  ("ZWL007889", "Mumbai Bhandup West", mkRat 19151889 1000000, mkRat 72934553 1000000),
  ("ZWL008977", "Mumbai Kamothe", mkRat 19023359 1000000, mkRat 73091814 1000000),
  ("ZWL006622", "Mumbai Powai, Mumbai", mkRat 19115248 1000000, mkRat 72908952 1000000),
  ("ZWL002074", "Mumbai Naupada", mkRat 19188451 1000000, mkRat 72968001 1000000),
  ("ZWL008874", "Mumbai Bhayandar West", mkRat 19257869 1000000, mkRat 72804743 1000000),
  ("ZWL001334", "Mumbai Vileparle East", mkRat 19098430 1000000, mkRat 72864947 1000000),
  ("ZWL008378", "Mumbai Sion", mkRat 19045271 1000000, mkRat 72864631 1000000),
  ("ZWL007690", "Mumbai Nerul (Navi Mumbai)", mkRat 19031072 1000000, mkRat 73026647 1000000),
  ("ZWL007706", "Mumbai Dahisar West", mkRat 19255014 1000000, mkRat 72848267 1000000),
  ("ZWL005320", "Mumbai Colaba", mkRat 18919405 1000000, mkRat 72824376 1000000),
  ("ZWL006544", "Mumbai Mahim", mkRat 19039256 1000000, mkRat 72843913 1000000),
  ("ZWL002686", "Mumbai Wadala", mkRat 19017538 1000000, mkRat 72867138 1000000),
  ("ZWL001089", "Mumbai Borivali West", mkRat 19229714 1000000, mkRat 72839710 1000000),
  ("ZWL008360", "Mumbai Palava Lakeshore,Mumbai", mkRat 19165716 1000000, mkRat 73105733 1000000),
  ("ZWL003467", "Bengaluru Banashankari", mkRat 12936787 1000000, mkRat 77556079 1000000),
  ("ZWL004900", "Bengaluru Rajarajeshwari Nagar", mkRat 12918637 1000000, mkRat 77505467 1000000),
  ("ZWL005530", "Bengaluru JP Nagar", mkRat 12893441 1000000, mkRat 77560436 1000000),
  ("ZWL007643", "Bengaluru Mahadevapura", mkRat 12985322 1000000, mkRat 77687578 1000000),
  ("ZWL003159", "Bengaluru Jalahalli", mkRat 13031518 1000000, mkRat 77530986 1000000),
  ("ZWL002736", "Bengaluru RT Nagar", mkRat 13021267 1000000, mkRat 77601234 1000000),
  ("ZWL006369", "Bengaluru KR Puram", mkRat 13016987 1000000, mkRat 77706819 1000000),
  ("ZWL006274", "Bengaluru Electronic City", mkRat 12833101 1000000, mkRat 77673182 1000000),
  ("ZWL005375", "Bengaluru Vijayanagar", mkRat 12973219 1000000, mkRat 77519303 1000000),
  ("ZWL008600", "Bengaluru Marathahalli", mkRat 12955103 1000000, mkRat 77696507 1000000),
  ("ZWL002292", "Bengaluru Sarjapur road", mkRat 12900225 1000000, mkRat 77697451 1000000),
  ("ZWL004341", "Bengaluru Brookefields", mkRat 12967420 1000000, mkRat 77717851 1000000),
  ("ZWL007633", "Bengaluru Whitefield", mkRat 12975224 1000000, mkRat 77740422 1000000),
  ("ZWL009212", "Bengaluru Nagavara", mkRat 13048370 1000000, mkRat 77625534 1000000),
  ("ZWL007628", "Bengaluru New BEL Road", mkRat 13040495 1000000, mkRat 77569420 1000000),
  ("ZWL001156", "Bengaluru Koramangala", mkRat 12933756 1000000, mkRat 77625825 1000000),
  ("ZWL004924", "Bengaluru Bannerghatta Road, Bangalore", mkRat 12891397 1000000, mkRat 77608176 1000000),
  ("ZWL009229", "Bengaluru Aavalahalli", mkRat 13034488 1000000, mkRat 77712241 1000000),
  ("ZWL005576", "Bengaluru BIAL Airport Road", mkRat 13178996 1000000, mkRat 77630005 1000000),
  ("ZWL006658", "Bengaluru Yelahanka", mkRat 13111809 1000000, mkRat 77589276 1000000),
  ("ZWL002882", "Bengaluru Kadugodi", mkRat 13007511 1000000, mkRat 77763209 1000000),
  ("ZWL006631", "Bengaluru Kammanahalli", mkRat 13016050 1000000, mkRat 77661735 1000000),
  ("ZWL001196", "Bengaluru HSR Layout", mkRat 12908482 1000000, mkRat 77641773 1000000),
  ("ZWL006600", "Bengaluru BTM Layout", mkRat 12916931 1000000, mkRat 77608897 1000000),
  ("ZWL006854", "Bengaluru Varthur", mkRat 12936055 1000000, mkRat 77723415 1000000),
  ("ZWL001273", "Bengaluru Indiranagar", mkRat 12952636 1000000, mkRat 77653059 1000000),
  ("ZWL008105", "Bengaluru Jayanagar", mkRat 12944441 1000000, mkRat 77581003 1000000),
  ("ZWL005206", "Bengaluru Sahakaranagar", mkRat 13059918 1000000, mkRat 77591344 1000000),
  ("ZWL008797", "Bengaluru Devanahalli, Bangalore", mkRat 13258381 1000000, mkRat 77716183 1000000),
  ("ZWL001962", "Bengaluru MG Road", mkRat 12982689 1000000, mkRat 77608075 1000000),
  ("ZWL006844", "Bengaluru Rajajinagar", mkRat 12993217 1000000, mkRat 77557903 1000000),
  ("ZWL004164", "Bengaluru Bellandur", mkRat 12936225 1000000, mkRat 77665059 1000000),
  ("ZWL007698", "Pune NIGDI(Pune)", mkRat 18646511 1000000, mkRat 73775411 1000000),
  ("ZWL005773", "Pune Bibvewadi (Pune)", mkRat 18492332 1000000, mkRat 73861939 1000000),
  ("ZWL009577", "Pune Nanded-Nahre", mkRat 18453179 1000000, mkRat 73811077 1000000),
  ("ZWL002253", "Pune Bhosari (Pune)", mkRat 18643893 1000000, mkRat 73858653 1000000),
  ("ZWL003498", "Pune Camp Area", mkRat 18513693 1000000, mkRat 73877293 1000000),
  ("ZWL004311", "Pune Magarpatta", mkRat 18519482 1000000, mkRat 73934360 1000000),
  ("ZWL007801", "Pune Pimpri", mkRat 18625381 1000000, mkRat 73791194 1000000),
  ("ZWL008134", "Pune Yerwada", mkRat 18544659 1000000, mkRat 73869499 1000000),
  ("ZWL009625", "Pune Kalyani Nagar (Pune)", mkRat 18546538 1000000, mkRat 73906594 1000000),
  ("ZWL001627", "Pune Sus, Pune", mkRat 18564293 1000000, mkRat 73753879 1000000),
  ("ZWL006236", "Pune Bavdhan", mkRat 18514730 1000000, mkRat 73777922 1000000),
  ("ZWL006743", "Pune Viman nagar", mkRat 18564998 1000000, mkRat 73911551 1000000),
  ("ZWL004927", "Pune Aundh (Pune)", mkRat 18559795 1000000, mkRat 73807123 1000000),
  ("ZWL008370", "Pune Katraj (Pune)", mkRat 18451394 1000000, mkRat 73847642 1000000),
  ("ZWL004523", "Pune", mkRat 18600897 1000000, mkRat 73798441 1000000),
  ("ZWL001778", "Pune Dhanori", mkRat 18588936 1000000, mkRat 73907711 1000000),
  ("ZWL003386", "Pune Dehu Road", mkRat 18695874 1000000, mkRat 73740365 1000000),
  ("ZWL009157", "Pune Koregaon Park (Pune)", mkRat 18535326 1000000, mkRat 73883976 1000000),
  ("ZWL004962", "Pune Hinjewadi - Phase 2", mkRat 18585004 1000000, mkRat 73706319 1000000),
  ("ZWL005340", "Pune", mkRat 18599555 1000000, mkRat 73774652 1000000),
  ("ZWL009671", "Pune Manas Lake, Pune", mkRat 18491382 1000000, mkRat 73748953 1000000),
  ("ZWL008921", "Pune Sadashiv Peth", mkRat 18511357 1000000, mkRat 73856996 1000000),
  ("ZWL008940", "Pune Ghorpadi (Pune)", mkRat 18519767 1000000, mkRat 73897269 1000000),
  ("ZWL009874", "Pune Pashan (Pune)", mkRat 18527587 1000000, mkRat 73789459 1000000),
  ("ZWL006660", "Pune SP Infocity, Pune", mkRat 18487813 1000000, mkRat 73947187 1000000),
  ("ZWL003813", "Pune Manjri,Pune", mkRat 18509232 1000000, mkRat 73978364 1000000),
  ("ZWL007471", "Pune Khadki, Pune", mkRat 18563289 1000000, mkRat 73835023 1000000),
  ("ZWL009602", "Pune Kothrud (Pune)", mkRat 18504984 1000000, mkRat 73811587 1000000),
  ("ZWL002208", "Pune Sinhagad Road(Pune)", mkRat 18477264 1000000, mkRat 73826437 1000000),
  ("ZWL007895", "Pune New Sangvi, Pune", mkRat 18578959 1000000, mkRat 73823437 1000000),
  ("ZWL003099", "Pune Nimgaon, Pune", mkRat 18794589 1000000, mkRat 73910016 1000000),
  ("ZWL004575", "Pune Wagholi", mkRat 18579310 1000000, mkRat 73972122 1000000),
  ("ZWL004513", "Pune Keshavnagar, Pune", mkRat 18537273 1000000, mkRat 73944521 1000000),
  ("ZWL008983", "Pune Baner (Pune)", mkRat 18567954 1000000, mkRat 73783475 1000000),
  ("ZWL005520", "Pune Warje (Pune)", mkRat 18472703 1000000, mkRat 73788400 1000000),
  ("ZWL003300", "Pune Mundwa, Pune", mkRat 18535220 1000000, mkRat 73918549 1000000),
  ("ZWL001963", "Pune Chakan", mkRat 18752436 1000000, mkRat 73837484 1000000),
  ("ZWL002422", "Pune Shivaji Nagar (Pune)", mkRat 18526724 1000000, mkRat 73841658 1000000),
  ("ZWL005088", "Pune Yewalewadi, Pune", mkRat 18439804 1000000, mkRat 73902433 1000000),
  ("ZWL003014", "Pune Bopkhel, Pune", mkRat 18586306 1000000, mkRat 73859602 1000000),
  ("ZWL001472", "Pune Kharadi", mkRat 18552390 1000000, mkRat 73941901 1000000),
  ("ZWL004339", "Pune Talegaon Dabhade", mkRat 18738724 1000000, mkRat 73675701 1000000),
  ("ZWL003817", "Pune Hinjewadi - Phase 1", mkRat 18596583 1000000, mkRat 73733312 1000000),
  ("ZWL007925", "Pune Wanowrie-Kondhwa", mkRat 18477085 1000000, mkRat 73900966 1000000),
  ("ZWL003370", "Hyderabad Nagole", mkRat 17359969 1000000, mkRat 78565724 1000000),
  ("ZWL002088", "Hyderabad Attapur", mkRat 17380875 1000000, mkRat 78415717 1000000),
  ("ZWL006702", "Hyderabad Peerzadiguda", mkRat 17411644 1000000, mkRat 78578220 1000000),
  ("ZWL008776", "Hyderabad Begumpet", mkRat 17442659 1000000, mkRat 78482009 1000000),
  ("ZWL003918", "Hyderabad Suraram, Hyderabad", mkRat 17559752 1000000, mkRat 78437467 1000000),
  ("ZWL004079", "Hyderabad Banjara Hills", mkRat 17419238 1000000, mkRat 78438474 1000000),
  ("ZWL008309", "Hyderabad Alwal", mkRat 17508852 1000000, mkRat 78507402 1000000),
  ("ZWL002433", "Hyderabad Sainikpuri", mkRat 17489079 1000000, mkRat 78558910 1000000),
  ("ZWL007390", "Hyderabad Saroor Nagar", mkRat 17348264 1000000, mkRat 78530476 1000000),
  ("ZWL004767", "Hyderabad Karkhana", mkRat 17467142 1000000, mkRat 78496696 1000000),
  ("ZWL006016", "Hyderabad Kompally", mkRat 17533309 1000000, mkRat 78489965 1000000),
  ("ZWL003283", "Hyderabad Himayatnagar", mkRat 17402602 1000000, mkRat 78487229 1000000),
  ("ZWL007311", "Hyderabad Medchal Road", mkRat 17637191 1000000, mkRat 78480392 1000000),
  ("ZWL005919", "Hyderabad Kukatpally", mkRat 17495894 1000000, mkRat 78416259 1000000),
  ("ZWL001822", "Hyderabad Amberpet", mkRat 17407658 1000000, mkRat 78521703 1000000),
  ("ZWL008208", "Hyderabad Jeedimetla", mkRat 17495621 1000000, mkRat 78450281 1000000),
  ("ZWL001362", "Hyderabad Gachibowli", mkRat 17452114 1000000, mkRat 78351486 1000000),
  ("ZWL002162", "Hyderabad LB Nagar", mkRat 17345727 1000000, mkRat 78557062 1000000),
  ("ZWL009712", "Hyderabad Dilsukhnagar", mkRat 17370431 1000000, mkRat 78536184 1000000),
  ("ZWL005963", "Hyderabad Masab Tank", mkRat 17398217 1000000, mkRat 78462258 1000000),
  ("ZWL008297", "Hyderabad Bachupally", mkRat 17544887 1000000, mkRat 78359975 1000000),
  ("ZWL005424", "Hyderabad Manikonda", mkRat 17405930 1000000, mkRat 78388380 1000000),
  ("ZWL008585", "Hyderabad Shamshabad", mkRat 17257432 1000000, mkRat 78387920 1000000),
  ("ZWL008599", "Hyderabad Miyapur", mkRat 17500034 1000000, mkRat 78342670 1000000),
  ("ZWL006535", "Hyderabad Hayath Nagar, Hyderabad", mkRat 17326620 1000000, mkRat 78609288 1000000),
  ("ZWL006545", "Hyderabad Sangareddy, Hyderabad", mkRat 17598038 1000000, mkRat 78091346 1000000),
  ("ZWL009719", "Hyderabad JNTU", mkRat 17485166 1000000, mkRat 78389775 1000000),
  ("ZWL008890", "Hyderabad Serilingampally", mkRat 17485245 1000000, mkRat 78313916 1000000),
  ("ZWL007119", "Hyderabad Nizampet", mkRat 17509398 1000000, mkRat 78390364 1000000),
  ("ZWL004747", "Hyderabad Q City, Hyderabad", mkRat 17421788 1000000, mkRat 78318868 1000000),
  ("ZWL004802", "Hyderabad Madhapur", mkRat 17441185 1000000, mkRat 78398416 1000000),
  ("ZWL004665", "Hyderabad Narayanguda", mkRat 17392120 1000000, mkRat 78494443 1000000),
  ("ZWL005999", "Hyderabad ECIL", mkRat 17460327 1000000, mkRat 78567924 1000000),
  ("ZWL003360", "Hyderabad Toli Chowki", mkRat 17398121 1000000, mkRat 78421238 1000000),
  ("ZWL007187", "Hyderabad Kondapur", mkRat 17472485 1000000, mkRat 78367854 1000000),
  ("ZWL007344", "Hyderabad Charminar", mkRat 17375037 1000000, mkRat 78454499 1000000),
  ("ZWL008438", "Hyderabad Sivarampalli", mkRat 17345995 1000000, mkRat 78439283 1000000),
  ("ZWL005494", "Hyderabad Tarnaka", mkRat 17431829 1000000, mkRat 78550940 1000000),
  ("ZWL009519", "Hyderabad Moosapet", mkRat 17453292 1000000, mkRat 78421126 1000000),
  ("ZWL001687", "Hyderabad Patancheru, Hyderabad", mkRat 17542613 1000000, mkRat 78276529 1000000),
  ("ZWL005569", "Hyderabad Vanasthali Puram", mkRat 17318241 1000000, mkRat 78544989 1000000),
  ("ZWL003027", "Hyderabad Ameerpet", mkRat 17434737 1000000, mkRat 78446618 1000000),
  ("ZWL001337", "Hyderabad Uppal", mkRat 17403149 1000000, mkRat 78554106 1000000),
  ("ZWL001579", "Hyderabad Malakpet", mkRat 17371621 1000000, mkRat 78502672 1000000),
  ("ZWL006699", "Hyderabad Hafiz Baba Nagar", mkRat 17338717 1000000, mkRat 78497590 1000000),
  ("ZWL008512", "Hyderabad Mokila, Hyderabad", mkRat 17436228 1000000, mkRat 78190072 1000000),
  ("ZWL006789", "Chennai Potheri", mkRat 12799983 1000000, mkRat 80029865 1000000),
  ("ZWL004297", "Chennai Pallavaram", mkRat 12973055 1000000, mkRat 80151271 1000000),
  ("ZWL005190", "Chennai Nungambakkam", mkRat 13060471 1000000, mkRat 80255887 1000000),
  ("ZWL003967", "Chennai Anna Nagar, Chennai", mkRat 13086884 1000000, mkRat 80206602 1000000),
  ("ZWL008996", "Chennai Perambur", mkRat 13121741 1000000, mkRat 80225058 1000000),
  ("ZWL005857", "Chennai Mogappair, Chennai", mkRat 13080365 1000000, mkRat 80175724 1000000),
  ("ZWL006232", "Chennai Royapuram", mkRat 13136635 1000000, mkRat 80289535 1000000),
  ("ZWL008548", "Chennai Mugalivakkam", mkRat 13014886 1000000, mkRat 80152455 1000000),
  ("ZWL006053", "Chennai Porur", mkRat 13048069 1000000, mkRat 80158163 1000000),
  ("ZWL001398", "Chennai Redhills", mkRat 13191443 1000000, mkRat 80181225 1000000),
  ("ZWL001701", "Chennai Tambaram", mkRat 12934834 1000000, mkRat 80101824 1000000),
  ("ZWL008876", "Chennai Avadi", mkRat 13125301 1000000, mkRat 80069776 1000000),
  ("ZWL003387", "Chennai Kilpauk", mkRat 13080772 1000000, mkRat 80248018 1000000),
  ("ZWL007059", "Chennai Ashok Nagar (CHENNAI)", mkRat 13022680 1000000, mkRat 80200286 1000000),
  ("ZWL006520", "Chennai Adyar", mkRat 12993947 1000000, mkRat 80247174 1000000),
  ("ZWL001210", "Chennai Alwarpet", mkRat 13032366 1000000, mkRat 80257625 1000000),
  ("ZWL007171", "Chennai Selaiyur", mkRat 12916570 1000000, mkRat 80134348 1000000),
  ("ZWL006329", "Chennai Thandalam, Chennai", mkRat 12863785 1000000, mkRat 79947886 1000000),
  ("ZWL004233", "Chennai Sholinganallur", mkRat 12921608 1000000, mkRat 80233727 1000000),
  ("ZWL007209", "Chennai Ambattur", mkRat 13117566 1000000, mkRat 80146667 1000000),
  ("ZWL003452", "Chennai Medavakkam", mkRat 12931197 1000000, mkRat 80182327 1000000),
  ("ZWL007176", "Chennai Poonamallee", mkRat 13052763 1000000, mkRat 80090763 1000000),
  ("ZWL009897", "Chennai Minjur, Chennai", mkRat 13282298 1000000, mkRat 80266616 1000000),
  ("ZWL004882", "Chennai Urapakkam", mkRat 12878957 1000000, mkRat 80070307 1000000),
  ("ZWL006156", "Chennai Velachery", mkRat 12989300 1000000, mkRat 80199988 1000000),
  ("ZWL001141", "Chennai Navallur", mkRat 12841923 1000000, mkRat 80209025 1000000),
  ("ZWL004431", "Chennai Vadapalani", mkRat 13065160 1000000, mkRat 80207917 1000000),
  ("ZWL001516", "Chennai T Nagar", mkRat 13026256 1000000, mkRat 80228120 1000000),
  ("ZWL003425", "Lucknow Hazratganj", mkRat 26844819 1000000, mkRat 80940833 1000000),
  ("ZWL006490", "Lucknow Aminabad", mkRat 26856770 1000000, mkRat 80925103 1000000),
  ("ZWL009091", "Lucknow Chowk", mkRat 26873686 1000000, mkRat 80894502 1000000),
  ("ZWL003030", "Lucknow Telibagh, Lucknow", mkRat 26776664 1000000, mkRat 80936755 1000000),
  ("ZWL004978", "Lucknow Husainganj", mkRat 26836970 1000000, mkRat 80926110 1000000),
  ("ZWL009177", "Lucknow Jankipuram", mkRat 26926427 1000000, mkRat 80936884 1000000),
  ("ZWL004436", "Lucknow Arjunganj", mkRat 26794554 1000000, mkRat 80999112 1000000),
  ("ZWL005470", "Lucknow Chinhat, Lucknow", mkRat 26878323 1000000, mkRat 81038299 1000000),
  ("ZWL001500", "Lucknow Mahanagar", mkRat 26886387 1000000, mkRat 80960641 1000000),
  ("ZWL003371", "Lucknow Ashiyana", mkRat 26790510 1000000, mkRat 80913855 1000000),
  ("ZWL003635", "Lucknow Indira Nagar, Lucknow", mkRat 26883684 1000000, mkRat 80990290 1000000),
  ("ZWL003320", "Lucknow Vasant Kunj, Lucknow", mkRat 26877121 1000000, mkRat 80878447 1000000),
  ("ZWL009682", "Lucknow Rajajipuram", mkRat 26842055 1000000, mkRat 80873868 1000000),
  ("ZWL002273", "Lucknow Gomti Nagar", mkRat 26850582 1000000, mkRat 80999875 1000000),
  ("ZWL002331", "Lucknow Alambagh", mkRat 26810769 1000000, mkRat 80904864 1000000),
  ("ZWL007731", "Lucknow Aliganj, Lucknow", mkRat 26890082 1000000, mkRat 80942007 1000000),
  ("ZWL007011", "Lucknow Kalyanpur", mkRat 26907206 1000000, mkRat 80974143 1000000),
  ("ZWL003768", "Kochi Eroor", mkRat 9929826 1000000, mkRat 76332369 1000000),
  ("ZWL005555", "Kochi Kakkanad", mkRat 10014153 1000000, mkRat 76358626 1000000),
  ("ZWL002986", "Kochi Nedumbassery,Kochi", mkRat 10178008 1000000, mkRat 76386636 1000000),
  ("ZWL004273", "Kochi North Paravur, Kochi", mkRat 10162441 1000000, mkRat 76216317 1000000),
  ("ZWL005425", "Kochi Aluva, Kochi", mkRat 10106615 1000000, mkRat 76348843 1000000),
  ("ZWL004691", "Kochi Ambalamugal", mkRat 9980241 1000000, mkRat 76397987 1000000),
  ("ZWL001981", "Kochi Kalamassery", mkRat 10046034 1000000, mkRat 76308117 1000000),
  ("ZWL003786", "Kochi Kaloor", mkRat 10000143 1000000, mkRat 76298744 1000000),
  ("ZWL009487", "Kochi Perumbavoor,Kochi", mkRat 10117563 1000000, mkRat 76460320 1000000),
  ("ZWL007216", "Kochi Thiruvankulam", mkRat 9932264 1000000, mkRat 76385740 1000000),
  ("ZWL002327", "Kochi Vypin, Kochi", mkRat 10019731 1000000, mkRat 76245595 1000000),
  ("ZWL006873", "Kochi Ernakulam", mkRat 9969514 1000000, mkRat 76288288 1000000),
  ("ZWL004591", "Kochi Fort Kochi", mkRat 9931564 1000000, mkRat 76268065 1000000),
  ("ZWL005082", "Jaipur Mansarovar-2", mkRat 26844258 1000000, mkRat 75768570 1000000),
  ("ZWL003863", "Jaipur Tonk road 2", mkRat 26853567 1000000, mkRat 75794945 1000000),
  ("ZWL009286", "Jaipur Jagatpura", mkRat 26825942 1000000, mkRat 75851086 1000000),
  ("ZWL009458", "Jaipur Shyam Nagar", mkRat 26887617 1000000, mkRat 75756174 1000000),
  ("ZWL003704", "Jaipur C Scheme", mkRat 26916823 1000000, mkRat 75801190 1000000),
  ("ZWL003606", "Jaipur Lal Kothi", mkRat 26893689 1000000, mkRat 75797800 1000000),
  ("ZWL009569", "Jaipur Pink City", mkRat 26929588 1000000, mkRat 75823855 1000000),
  ("ZWL001750", "Jaipur Vaishali Nagar", mkRat 26909885 1000000, mkRat 75739394 1000000),
  ("ZWL002751", "Jaipur Malviya Nagar", mkRat 26854191 1000000, mkRat 75810798 1000000),
  ("ZWL005080", "Jaipur Sodala", mkRat 26904751 1000000, mkRat 75777608 1000000),
  ("ZWL008680", "Jaipur Vidhyadhar Nagar", mkRat 26963051 1000000, mkRat 75770166 1000000),
  ("ZWL008249", "Jaipur Raja Park", mkRat 26902497 1000000, mkRat 75826544 1000000),
  ("ZWL008915", "Jaipur Shastri Nagar", mkRat 26936514 1000000, mkRat 75797054 1000000),
  ("ZWL006372", "Jaipur Pratap Nagar", mkRat 26798396 1000000, mkRat 75815353 1000000),
  ("ZWL003133", "Ahmedabad Paldi", mkRat 22994998 1000000, mkRat 72557474 1000000),
  ("ZWL002302", "Ahmedabad Shahibag", mkRat 23058607 1000000, mkRat 72592212 1000000),
  ("ZWL003747", "Ahmedabad Navrangpura", mkRat 23038426 1000000, mkRat 72558241 1000000),
  ("ZWL002503", "Ahmedabad Chandkheda", mkRat 23117204 1000000, mkRat 72607123 1000000),
  ("ZWL005979", "Ahmedabad Science-City Sola", mkRat 23087361 1000000, mkRat 72510289 1000000),
  ("ZWL005987", "Ahmedabad Sector 16, Gandhinagar", mkRat 23216612 1000000, mkRat 72652543 1000000),
  ("ZWL001959", "Ahmedabad Vastrapur", mkRat 23042513 1000000, mkRat 72524312 1000000),
  ("ZWL007404", "Ahmedabad Prahlad Nagar", mkRat 22998074 1000000, mkRat 72515955 1000000),
  ("ZWL001898", "Ahmedabad Nikol", mkRat 23077071 1000000, mkRat 72637566 1000000),
  ("ZWL002250", "Ahmedabad Infocity, Gandhinagar", mkRat 23177762 1000000, mkRat 72636221 1000000),
  ("ZWL004415", "Ahmedabad Naranpura", mkRat 23072018 1000000, mkRat 72573161 1000000),
  ("ZWL006288", "Ahmedabad Bopal", mkRat 23011294 1000000, mkRat 72464041 1000000),
  ("ZWL009182", "Ahmedabad Maninagar", mkRat 22985307 1000000, mkRat 72610322 1000000),
  ("ZWL009990", "Ahmedabad Bodakdev", mkRat 23055398 1000000, mkRat 72491724 1000000),
  ("ZWL003455", "Ahmedabad Gota", mkRat 23131231 1000000, mkRat 72543606 1000000),
  ("ZWL007561", "Chandigarh Sector 15 (Chandigarh)", mkRat 30764466 1000000, mkRat 76774815 1000000),
  ("ZWL006687", "Chandigarh Sector 8 (Chandigarh)", mkRat 30749265 1000000, mkRat 76801584 1000000),
  ("ZWL001934", "Chandigarh Manimajra (Chandigarh)", mkRat 30722848 1000000, mkRat 76835395 1000000),
  ("ZWL003936", "Chandigarh Industrial Area Phase I (Chandigarh)", mkRat 30701381 1000000, mkRat 76808231 1000000),
  ("ZWL004716", "Chandigarh Sector 59 (Chandigarh)", mkRat 30725954 1000000, mkRat 76716657 1000000),
  ("ZWL002303", "Chandigarh Sector 20, Panchkula", mkRat 30667002 1000000, mkRat 76860170 1000000),
  ("ZWL009521", "9 nd Panchkula", mkRat 30694507 1000000, mkRat 76849604 1000000),
  ("ZWL006817", "Chandigarh Sector 28 (Chandigarh)", mkRat 30724245 1000000, mkRat 76808833 1000000),
  ("ZWL003496", "Chandigarh Phase 10 Mohali", mkRat 30692094 1000000, mkRat 76733846 1000000),
  ("ZWL009894", "Chandigarh Gillco, Chandigarh", mkRat 30736526 1000000, mkRat 76654293 1000000),
  ("ZWL004101", "Chandigarh Sector 46 (Chandigarh)", mkRat 30705920 1000000, mkRat 76762310 1000000),
  ("ZWL003262", "Chandigarh Sector 70 (Chandigarh)", mkRat 30709870 1000000, mkRat 76692050 1000000),
  ("ZWL009430", "Chandigarh VIP Road, Zirakpur", mkRat 30656048 1000000, mkRat 76823298 1000000),
  ("ZWL004196", "Chandigarh VR Mall", mkRat 30730066 1000000, mkRat 76684242 1000000),
  ("ZWL003093", "Chandigarh Sector 35 (Chandigarh)", mkRat 30727290 1000000, mkRat 76756632 1000000),
  ("ZWL009406", "Chandigarh Sector 22 (Chandigarh)", mkRat 30735307 1000000, mkRat 76774912 1000000),
  ("ZWL002150", "Goa Verna, Goa", mkRat 15380640 1000000, mkRat 73909304 1000000),
  ("ZWL008519", "Goa Mapusa, Goa", mkRat 15599556 1000000, mkRat 73791137 1000000),
  ("ZWL004452", "Goa Calangute, Goa", mkRat 15532704 1000000, mkRat 73762608 1000000),
  ("ZWL006556", "Goa Majorda, Goa", mkRat 15255895 1000000, mkRat 73937616 1000000),
  ("ZWL002137", "Goa Upper panaji, Goa", mkRat 15460913 1000000, mkRat 73835391 1000000),
  ("ZWL005093", "Goa Ponda, Goa", mkRat 15398953 1000000, mkRat 74002377 1000000),
  ("ZWL002142", "Goa Margao, Goa", mkRat 15231363 1000000, mkRat 73997689 1000000),
  ("ZWL004621", "Goa Vasco, Goa", mkRat 15387592 1000000, mkRat 73829979 1000000),
  ("ZWL006403", "Goa Morjim, Goa", mkRat 15653757 1000000, mkRat 73747022 1000000),
  ("ZWL005568", "Goa Porvorim, Goa", mkRat 15535007 1000000, mkRat 73827229 1000000),
  ("ZWL009021", "Ludhiana Sector 32, Ludhiana", mkRat 30895881 1000000, mkRat 75906050 1000000),
  ("ZWL006208", "Ludhiana Civil Lines, Ludhiana", mkRat 30916548 1000000, mkRat 75818266 1000000),
  ("ZWL006788", "Ludhiana Sarabha Nagar, Ludhiana", mkRat 30891869 1000000, mkRat 75834901 1000000),
  ("ZWL005256", "Ludhiana BRS Nagar, Ludhiana", mkRat 30897774 1000000, mkRat 75787544 1000000),
  ("ZWL001163", "Ludhiana Model Town, Ludhiana", mkRat 30881060 1000000, mkRat 75875309 1000000),
  ("ZWL003304", "Ludhiana Ganesh Nagar, Ludhiana", mkRat 30917540 1000000, mkRat 75879759 1000000),
  ("ZWL003119", "Ludhiana Dugri,Ludhiana", mkRat 30856247 1000000, mkRat 75843129 1000000),
  ("ZWL006981", "Guwahati Pathar Quarry, Guwahati", mkRat 26159879 1000000, mkRat 91827651 1000000),
  ("ZWL006537", "Guwahati Basistha-Lokhra, Guwahati", mkRat 26116888 1000000, mkRat 91777488 1000000),
  ("ZWL009407", "Guwahati North Guwahati, Guwahati", mkRat 26196471 1000000, mkRat 91684788 1000000),
  ("ZWL004763", "Guwahati Dharapur, Guwahati", mkRat 26134004 1000000, mkRat 91623895 1000000),
  ("ZWL007095", "Guwahati Lal Ganesh - Kahilipara, Guwahati", mkRat 26145102 1000000, mkRat 91752656 1000000),
  ("ZWL002105", "Guwahati Paltan-Bazar, Guwahati", mkRat 26183358 1000000, mkRat 91752480 1000000),
  ("ZWL003362", "Guwahati Azara, Guwahati", mkRat 26110966 1000000, mkRat 91602115 1000000),
  ("ZWL002491", "Guwahati Changsari, Guwahati", mkRat 26262376 1000000, mkRat 91694879 1000000),
  ("ZWL005319", "Guwahati Maligaon - Jalukbari, Guwahati", mkRat 26161285 1000000, mkRat 91689576 1000000),
  ("ZWL005708", "Guwahati Zoo Tiniali - Christian basti", mkRat 26177033 1000000, mkRat 91779799 1000000),
  ("ZWL001780", "Amritsar Himatpura, Amritsar", mkRat 31608999 1000000, mkRat 74863051 1000000),
  ("ZWL008281", "Amritsar Rasulpur, Amritsar", mkRat 31619590 1000000, mkRat 74915049 1000000),
  ("ZWL004590", "Amritsar Ranjit Avenue, Amritsar", mkRat 31666773 1000000, mkRat 74850200 1000000),
  ("ZWL002073", "Amritsar White Avenue, Amritsar", mkRat 31657377 1000000, mkRat 74889594 1000000),
  ("ZWL005826", "Amritsar Chheharta, Amritsar", mkRat 31633049 1000000, mkRat 74817702 1000000),
  ("ZWL007456", "Amritsar Hall Bazar, Amritsar", mkRat 31632158 1000000, mkRat 74866838 1000000),
  ("ZWL008755", "Bhopal Ashoka Garden, Bhopal", mkRat 23260793 1000000, mkRat 77421525 1000000),
  ("ZWL009428", "Bhopal Shahpura,Bhopal", mkRat 23176545 1000000, mkRat 77418255 1000000),
  ("ZWL006900", "Bhopal Airport Area, Bhopal", mkRat 23290449 1000000, mkRat 77337426 1000000),
  ("ZWL002615", "Bhopal TT Nagar, Bhopal", mkRat 23223600 1000000, mkRat 77392134 1000000),
  ("ZWL003463", "Bhopal BHEL, Bhopal", mkRat 23267602 1000000, mkRat 77474332 1000000),
  ("ZWL002872", "Bhopal MP Nagar,Bhopal", mkRat 23227641 1000000, mkRat 77447330 1000000),
  ("ZWL005836", "Bhopal Hoshangabad Road, Bhopal", mkRat 23168118 1000000, mkRat 77482657 1000000),
  ("ZWL003417", "s Mall, Bhopal", mkRat 23293081 1000000, mkRat 77396385 1000000),
  ("ZWL001466", "Visakhapatnam NAD, Vizag", mkRat 17749616 1000000, mkRat 83230677 1000000),
  ("ZWL003024", "Visakhapatnam Gajuwaka", mkRat 17681004 1000000, mkRat 83207459 1000000),
  ("ZWL004755", "Visakhapatnam Dwaraka Nagar", mkRat 17739116 1000000, mkRat 83324672 1000000),
  ("ZWL009959", "Visakhapatnam Madhurawada", mkRat 17789823 1000000, mkRat 83373031 1000000),
  ("ZWL007491", "Bhubaneswar Madhusudan Nagar, Bhubaneswar", mkRat 20278497 1000000, mkRat 85824922 1000000),
  ("ZWL003084", "Bhubaneswar Kalinga Nagar, Bhubneshwar", mkRat 20277934 1000000, mkRat 85773884 1000000),
  ("ZWL003270", "Bhubaneswar Nayapalli, Bhubneshwar", mkRat 20299879 1000000, mkRat 85813518 1000000),
  ("ZWL007379", "Bhubaneswar Sahid Nagar, Bhubaneshwar", mkRat 20289125 1000000, mkRat 85856680 1000000),
  ("ZWL001823", "Bhubaneswar Lakshmi Sagar, Bhubneshwar", mkRat 20266492 1000000, mkRat 85851166 1000000),
  ("ZWL004098", "Bhubaneswar Khandagiri, Bhubneshwar", mkRat 20246979 1000000, mkRat 85766384 1000000),
  ("ZWL008906", "Bhubaneswar Jagmohan Nagar, Bhubaneswar", mkRat 20257002 1000000, mkRat 85789371 1000000),
  ("ZWL002821", "Bhubaneswar Kharabela Nagar, Bhubaneswar", mkRat 20271584 1000000, mkRat 85840940 1000000),
  ("ZWL009572", "Bhubaneswar Chandrasekharpur, Bhubaneswar", mkRat 20317124 1000000, mkRat 85806992 1000000),
  ("ZWL005652", "Bhubaneswar Patia, Bhubneshwar", mkRat 20363954 1000000, mkRat 85814321 1000000),
  ("ZWL003661", "Coimbatore Gandhipuram, Coimbatore", mkRat 11019095 1000000, mkRat 76968472 1000000),
  ("ZWL005742", "Coimbatore Vadavalli", mkRat 11024820 1000000, mkRat 76900648 1000000),
  ("ZWL008653", "Coimbatore RS Puram, Coimbatore", mkRat 11000355 1000000, mkRat 76941985 1000000),
  ("ZWL002703", "Coimbatore Racecourse, Coimbatore", mkRat 10999272 1000000, mkRat 76975662 1000000),
  ("ZWL009668", "Coimbatore Saibaba Colony, Coimbatore", mkRat 11032946 1000000, mkRat 76944253 1000000),
  ("ZWL007527", "Coimbatore Peelamedu, Coimbatore", mkRat 11026179 1000000, mkRat 77005899 1000000),
  ("ZWL005468", "Coimbatore Podanur, Coimbatore", mkRat 10977206 1000000, mkRat 76981702 1000000),
  ("ZWL004408", "Coimbatore Kunniamuthur, Coimbatore", mkRat 10937589 1000000, mkRat 76933705 1000000),
  ("ZWL008265", "Coimbatore Ondipudur, Coimbatore", mkRat 10997670 1000000, mkRat 77042986 1000000),
  ("ZWL007600", "Coimbatore Koundampalayam", mkRat 11068353 1000000, mkRat 76937962 1000000),
  ("ZWL002147", "Coimbatore Saravanampatty", mkRat 11070812 1000000, mkRat 76998053 1000000),
  ("ZWL009595", "Coimbatore Ganapathypudur, Coimbatore", mkRat 11042698 1000000, mkRat 76984477 1000000),
  ("ZWL001279", "Coimbatore Sitra, and Singanallur, Coimbatore", mkRat 11042569 1000000, mkRat 77054996 1000000),
  ("ZWL006449", "Mangalore South Mangalore", mkRat 12879030 1000000, mkRat 74854593 1000000),
  ("ZWL009478", "Mangalore Thokkattu, Mangalore", mkRat 12820460 1000000, mkRat 74865765 1000000),
  ("ZWL002354", "Vadodara Waghodia", mkRat 22300216 1000000, mkRat 73229259 1000000),
  ("ZWL004097", "Vadodara Fatehgunj", mkRat 22315398 1000000, mkRat 73199769 1000000),
  ("ZWL009713", "Vadodara Nizampura", mkRat 22334731 1000000, mkRat 73176306 1000000),
  ("ZWL008938", "Vadodara Diwalipura", mkRat 22302691 1000000, mkRat 73156120 1000000),
  ("ZWL004439", "Vadodara Akota", mkRat 22298674 1000000, mkRat 73178672 1000000),
  ("ZWL002446", "Vadodara Manjalpur, Vadodara", mkRat 22257070 1000000, mkRat 73191150 1000000),
  ("ZWL008232", "Vadodara Shubhanpura", mkRat 22321614 1000000, mkRat 73160014 1000000),
  ("ZWL002475", "Vadodara Alkapuri", mkRat 22313140 1000000, mkRat 73172760 1000000),
  ("ZWL005549", "Nagpur Pratap Nagar", mkRat 21114916 1000000, mkRat 79051774 1000000),
  ("ZWL001438", "Nagpur Sadar", mkRat 21171681 1000000, mkRat 79072065 1000000),
  ("ZWL006432", "Nagpur Kharabi, Nagpur", mkRat 21144692 1000000, mkRat 79136306 1000000),
  ("ZWL009782", "Nagpur Hanuman Nagar", mkRat 21131152 1000000, mkRat 79100974 1000000),
  ("ZWL008282", "Nagpur Dharampeth", mkRat 21131547 1000000, mkRat 79056027 1000000),
  ("ZWL001041", "Nagpur Manish Nagar", mkRat 21091663 1000000, mkRat 79072458 1000000),
  ("ZWL007188", "Nagpur Ayodhya Nagar, Nagpur", mkRat 21103625 1000000, mkRat 79104888 1000000),
  ("ZWL003633", "Nagpur Gandhibagh", mkRat 21146868 1000000, mkRat 79103994 1000000),
  ("ZWL002458", "Mysore Central Mysore", mkRat 12326689 1000000, mkRat 76633539 1000000),
  ("ZWL005095", "Surat Udhna, Surat", mkRat 21166218 1000000, mkRat 72850231 1000000),
  ("ZWL002155", "Surat City Light, Surat", mkRat 21159272 1000000, mkRat 72791465 1000000),
  ("ZWL007951", "Surat Athwa", mkRat 21168804 1000000, mkRat 72803931 1000000),
  ("ZWL006000", "Surat Vesu, Surat", mkRat 21136777 1000000, mkRat 72762895 1000000),
  ("ZWL008198", "Surat Adajan, Surat", mkRat 21211151 1000000, mkRat 72793110 1000000),
  ("ZWL002771", "Surat Varaccha, Surat", mkRat 21210937 1000000, mkRat 72857374 1000000),
  ("ZWL005626", "Surat New Textile Market, Surat", mkRat 21199018 1000000, mkRat 72828239 1000000),
  ("ZWL005423", "Surat Katargam, Surat", mkRat 21231792 1000000, mkRat 72824230 1000000),
  ("ZWL009343", "Trivandrum Kazhakoottam, Thiruvananthapuram", mkRat 8575170 1000000, mkRat 76904888 1000000),
  ("ZWL007746", "Trivandrum Tvm Central", mkRat 8490977 1000000, mkRat 76969250 1000000),
  ("ZWL002223", "Trivandrum Nemom, Thiruvananthapuram", mkRat 8430376 1000000, mkRat 77027424 1000000),
  ("ZWL005308", "Vijayawada Governorpet, Vijayawada", mkRat 16520989 1000000, mkRat 80636340 1000000),
  ("ZWL004428", "Vijayawada Gunadala, Vijayawada", mkRat 16515748 1000000, mkRat 80690025 1000000),
  ("ZWL002106", "Vijayawada Gollapudi, Vijayawada", mkRat 16541337 1000000, mkRat 80585061 1000000),
  ("ZWL005858", "Vijayawada Auto Nagar, Vijayawada", mkRat 16487591 1000000, mkRat 80685560 1000000),
  ("ZWL003905", "Vijayawada Labbipet, Vijayawada", mkRat 16510686 1000000, mkRat 80648812 1000000),
  ("ZWL009921", "Jalandhar Shastri Nagar, Jalandhar", mkRat 31323693 1000000, mkRat 75583627 1000000),
  ("ZWL002344", "Jalandhar Gurdev Nagar, Jalandhar", mkRat 31347368 1000000, mkRat 75566556 1000000),
  ("ZWL001077", "Jalandhar Paragpur, Jalandhar", mkRat 31285004 1000000, mkRat 75648457 1000000),
  ("ZWL005408", "Jalandhar Model Town, Jalandhar", mkRat 31299818 1000000, mkRat 75582441 1000000),
  ("ZWL001624", "Jalandhar Basti Nau, Jalandhar", mkRat 31327456 1000000, mkRat 75549901 1000000),
  ("ZWL004713", "Jalandhar Rama Mandi, Jalandhar", mkRat 31314281 1000000, mkRat 75617635 1000000),
  ("ZWL007457", "Jammu Greater Kailash, Jammu", mkRat 32670712 1000000, mkRat 74901243 1000000),
  ("ZWL005892", "Jammu Barnai, Jammu", mkRat 32755253 1000000, mkRat 74825204 1000000),
  ("ZWL008753", "Jammu Gandhi Nagar, Jammu", mkRat 32704392 1000000, mkRat 74864830 1000000),
  ("ZWL008047", "Jammu OLD JAMMU, Jammu", mkRat 32727614 1000000, mkRat 74856395 1000000),
  ("ZWL002687", "Jammu Channi Himmat, Jammu", mkRat 32690740 1000000, mkRat 74886902 1000000),
  ("ZWL003195", "Raipur Shankar Nagar, Raipur", mkRat 21251392 1000000, mkRat 81663850 1000000),
  ("ZWL009896", "Raipur Purena, Raipur", mkRat 21235636 1000000, mkRat 81692460 1000000),
  ("ZWL001038", "Raipur Mowa, Raipur", mkRat 21272467 1000000, mkRat 81671100 1000000),
  ("ZWL008872", "Raipur Mahaveer Nagar", mkRat 21210730 1000000, mkRat 81640523 1000000),
  ("ZWL004310", "Raipur Samta Colony, Raipur", mkRat 21243164 1000000, mkRat 81621252 1000000),
  ("ZWL006651", "Raipur Civil Lines, Raipur", mkRat 21243402 1000000, mkRat 81650848 1000000),
  ("ZWL008695", "Raipur Devendra Nagar", mkRat 21252033 1000000, mkRat 81650070 1000000)
]

/-- Rust `fn area_name`, generated by `locality_id!` (src/lib.rs lines
177-184): match the id against every `$str`, in order. -/
def area_name (id : String) : Option String :=
  (localityTable.find? (fun e => e.1 == id)).map (fun e => e.2.1)

/-- Rust `fn area_lat_long`, generated by `locality_id!` (src/lib.rs lines
185-192). -/
def area_lat_long (id : String) : Option (Rat × Rat) :=
  (localityTable.find? (fun e => e.1 == id)).map (fun e => e.2.2)

/-- The free `fn from_str`, generated by `locality_id!` (src/lib.rs lines
193-200): a matching row yields `Some(LocalityId::$konst)`, whose wrapped
string is that row's `$str`. -/
def from_str_dir (id : String) : Option LocalityId :=
  (localityTable.find? (fun e => e.1 == id)).map (fun e => LocalityId.mk e.1)

/-- Rust `LocalityId::from_str`, src/lib.rs lines 139-145. -/
def LocalityId.from_string (id : String) : Except InvalidLocalityId LocalityId :=
  if id.isEmpty then Except.error ⟨⟩
  else
    match from_str_dir id with
    | some l => Except.ok l
    | none => Except.error ⟨⟩

/-- Rust `LocalityId::locality_name`, src/lib.rs lines 147-149. -/
def LocalityId.locality_name (l : LocalityId) : Option String :=
  area_name l.code

/-- Rust `LocalityId::locality_lat_long`, src/lib.rs lines 150-152. -/
def LocalityId.locality_lat_long (l : LocalityId) : Option (Rat × Rat) :=
  area_lat_long l.code

/-- A 9-character code of the form `ZWL` followed by six decimal digits. -/
def isZWLCode (s : String) : Bool :=
  match s.data with
  | 'Z' :: 'W' :: 'L' :: ds => ds.length == 6 && ds.all Char.isDigit
  | _ => false

/-- The six measurement names the record is built from. -/
def measurementNames : List String :=
  ["temperature", "humidity", "wind_speed", "wind_direction",
   "rain_intensity", "rain_accumulation"]

/-- Select the measurement field of the record that a measurement name
populates (used to state the claims uniformly over the six names). -/
def fieldOfName (r : LocalityWeatherData) : String → Rat
  | "temperature" => r.temperature
  | "humidity" => r.humidity
  | "wind_speed" => r.wind_speed
  | "wind_direction" => r.wind_direction
  | "rain_intensity" => r.rain_intensity
  | "rain_accumulation" => r.rain_accumulation
  | _ => 0

/-- A status-200 response body of the documented wire shape, assembled
from a message, the measurement object and a device type. -/
def mkBody (msg : String) (inner : List (String × Json)) (dev : Nat) : Json :=
  Json.obj
    [("message", Json.str msg),
     ("locality_weather_data", Json.obj inner),
     ("device_type", Json.num (dev : Rat))]

/-- Injects a directory key into `Nat` (base-256 digit string) so that
duplicate detection can run on machine-checked integer comparisons. -/
def codeNum (s : String) : Nat :=
  s.data.foldl (fun n c => n * 256 + c.toNat) 0

/-- The check `noDups L` is true when no element of `L` occurs twice. -/
def noDups : List Nat → Bool
  | [] => true
  | x :: xs => !(xs.contains x) && noDups xs

set_option maxRecDepth 100000
set_option maxHeartbeats 8000000

/-! Helper lemmas. -/

theorem measureField_src_eq (m : List (String × Option Rat)) (name : String) :
    measureField_src m name = some (measureField m name) := by
  unfold measureField_src measureField
  rcases h : hmGet m name with _ | inner
  · simp [h]
  · rcases inner with _ | v <;> simp [h]

theorem buildRecord_src_eq (parsed : BodyValues) :
    buildRecord_src parsed = some (buildRecord parsed) := by
  unfold buildRecord_src buildRecord
  simp [measureField_src_eq]

/-! The claims. -/

/-- C1: for every status-200 response whose body parses into the raw
response shape, a non-empty `message` makes the interpreter return
`Err(TemporarilyUnavailable(m))` with the provider's message preserved
verbatim, and no record is built, whatever `locality_weather_data`
contains. -/
theorem c1_message_priority (j : Json) (bv : BodyValues)
    (hparse : BodyValues.fromJson j = some bv) (hmsg : bv.message ≠ "") :
    process_payload 200 (some j) =
      Except.error (WeatherResponseError.TemporarilyUnavailable bv.message) := by
  simp [process_payload, hparse, process_parsed, hmsg]

/-- Witness for C1 at a concrete status-200 body with message
`"station offline"`. -/
theorem c1_message_priority_witness :
    process_payload 200 (some (Json.obj
      [("message", Json.str "station offline"),
       ("locality_weather_data", Json.obj [("temperature", Json.num 25)]),
       ("device_type", Json.num 1)])) =
      Except.error (WeatherResponseError.TemporarilyUnavailable "station offline") :=
  c1_message_priority _ ⟨"station offline", [("temperature", some 25)], 1⟩
    (by decide) (by decide)

/-- C3: non-200 statuses are mapped without inspecting the body: 500 to
`ErrorRetrievingData`, 400 to `NotSupported`, 429 to
`ApiKeyLimitExhausted`, 403 to `CouldNotAuthenticate`, and every other
non-200 status `s` to `UnknownError(s)` carrying the literal code. -/
theorem c3_status_dispatch (s : Nat) (body : Option Json) :
    process_payload 500 body = Except.error WeatherResponseError.ErrorRetrievingData ∧
    process_payload 400 body = Except.error WeatherResponseError.NotSupported ∧
    process_payload 429 body = Except.error WeatherResponseError.ApiKeyLimitExhausted ∧
    process_payload 403 body = Except.error WeatherResponseError.CouldNotAuthenticate ∧
    (s ≠ 200 → s ≠ 500 → s ≠ 400 → s ≠ 429 → s ≠ 403 →
      process_payload s body = Except.error (WeatherResponseError.UnknownError s)) := by
  refine ⟨rfl, rfl, rfl, rfl, fun h1 h2 h3 h4 h5 => ?_⟩
  simp [process_payload, h1, h2, h3, h4, h5]

/-- Witness for C3 at status 418. -/
theorem c3_status_dispatch_witness :
    process_payload 418 none = Except.error (WeatherResponseError.UnknownError 418) :=
  (c3_status_dispatch 418 none).2.2.2.2 (by decide) (by decide) (by decide)
    (by decide) (by decide)

/-- C4: a status-200 response whose body is not valid JSON (`none`), or
is valid JSON on which the `BodyValues` shape deserialisation fails,
yields `Err(InvalidResponse)`. -/
theorem c4_invalid_response (body : Option Json)
    (hfail : body.bind BodyValues.fromJson = none) :
    process_payload 200 body = Except.error WeatherResponseError.InvalidResponse := by
  rcases body with _ | j
  · rfl
  · replace hfail : BodyValues.fromJson j = none := hfail
    simp [process_payload, hfail]

/-- Witness for C4 at a concrete status-200 body that is valid JSON but
not of the required shape. -/
theorem c4_invalid_response_witness :
    process_payload 200 (some (Json.str "not an object")) =
      Except.error WeatherResponseError.InvalidResponse :=
  c4_invalid_response (some (Json.str "not an object")) (by decide)

/-- C5: the interpreter is total: for every decoding of the body bytes
and every text-level JSON parse, the panic-aware transcription of
`process_payload` returns a `Result` (never `none`, the panic marker),
and that result is the one computed by the total interpreter; in
particular every parse anomaly ends in an `InvalidResponse` error rather
than a propagated fault. -/
theorem c5_total_no_panic (text : List Nat → String) (parse : String → Option Json)
    (status : Nat) (rawBody : List Nat) :
    process_payload_src text parse status rawBody =
      some (process_payload status (parse (text rawBody))) := by
  unfold process_payload_src process_payload
  by_cases h200 : status = 200
  · subst h200
    simp only [if_pos rfl]
    rcases hp : parse (text rawBody) with _ | j
    · simp
    · rcases hb : BodyValues.fromJson j with _ | parsed
      · simp [hb]
      · by_cases hmsg : parsed.message = ""
        · simp [hb, process_parsed, hmsg, buildRecord_src_eq]
        · simp [hb, process_parsed, hmsg]
  · simp only [if_neg h200]
    split
    · rfl
    · split
      · rfl
      · split
        · rfl
        · split <;> rfl

/-- C2: on a status-200 body that parses with an empty `message`, every
measurement name whose key is absent from `locality_weather_data` or
bound to null produces `0.0` in the corresponding field of the record;
the record is returned through `Ok` (and, being a plain struct, it can
have no missing field). -/
theorem c2_zero_default (j : Json) (bv : BodyValues) (name : String)
    (hparse : BodyValues.fromJson j = some bv) (hmsg : bv.message = "")
    (hname : name ∈ measurementNames)
    (hmiss : hmGet bv.locality_weather_data name = none ∨
             hmGet bv.locality_weather_data name = some none) :
    process_payload 200 (some j) = Except.ok (buildRecord bv) ∧
      fieldOfName (buildRecord bv) name = 0 := by
  refine ⟨by simp [process_payload, hparse, process_parsed, hmsg], ?_⟩
  have hz : ∀ n, hmGet bv.locality_weather_data n = none ∨
      hmGet bv.locality_weather_data n = some none →
      measureField bv.locality_weather_data n = 0 := by
    intro n h
    unfold measureField
    rcases h with h | h <;> simp [h]
  fin_cases hname <;> exact hz _ hmiss

/-- Witness for C2: a body whose `temperature` is null and whose other
five measurement keys are absent yields an all-zero record. -/
theorem c2_zero_default_witness :
    process_payload 200 (some (Json.obj
      [("message", Json.str ""),
       ("locality_weather_data", Json.obj [("temperature", Json.null)]),
       ("device_type", Json.num 2)])) =
      Except.ok (buildRecord ⟨"", [("temperature", none)], 2⟩) ∧
    fieldOfName (buildRecord ⟨"", [("temperature", none)], 2⟩) "temperature" = 0 :=
  c2_zero_default _ ⟨"", [("temperature", none)], 2⟩ "temperature"
    (by decide) rfl (by decide) (Or.inr (by decide))

/-- C6: on a status-200 body that parses with an empty `message` and all
six measurement keys bound to numeric values, the interpreter returns
`Ok` with the six literal values and the body's `device_type`. -/
theorem c6_echo_literal_values (j : Json) (bv : BodyValues)
    (t h ws wd ri ra : Rat)
    (hparse : BodyValues.fromJson j = some bv) (hmsg : bv.message = "")
    (ht : hmGet bv.locality_weather_data "temperature" = some (some t))
    (hh : hmGet bv.locality_weather_data "humidity" = some (some h))
    (hws : hmGet bv.locality_weather_data "wind_speed" = some (some ws))
    (hwd : hmGet bv.locality_weather_data "wind_direction" = some (some wd))
    (hri : hmGet bv.locality_weather_data "rain_intensity" = some (some ri))
    (hra : hmGet bv.locality_weather_data "rain_accumulation" = some (some ra)) :
    process_payload 200 (some j) =
      Except.ok ⟨bv.device_type, t, h, ws, wd, ri, ra⟩ := by
  simp [process_payload, hparse, process_parsed, hmsg, buildRecord, measureField,
        ht, hh, hws, hwd, hri, hra]

/-- Witness for C6 at a concrete body carrying all six measurements. -/
theorem c6_echo_literal_values_witness :
    process_payload 200 (some (Json.obj
      [("message", Json.str ""),
       ("locality_weather_data", Json.obj
         [("temperature", Json.num 25), ("humidity", Json.num 60),
          ("wind_speed", Json.num 3), ("wind_direction", Json.num 180),
          ("rain_intensity", Json.num 1), ("rain_accumulation", Json.num 7)]),
       ("device_type", Json.num 1)])) =
      Except.ok ⟨1, 25, 60, 3, 180, 1, 7⟩ :=
  c6_echo_literal_values _
    ⟨"", [("temperature", some 25), ("humidity", some 60), ("wind_speed", some 3),
          ("wind_direction", some 180), ("rain_intensity", some 1),
          ("rain_accumulation", some 7)], 1⟩
    25 60 3 180 1 7 (by decide) rfl (by decide) (by decide) (by decide) (by decide)
    (by decide) (by decide)

theorem hmGet_append_single_ne (m : List (String × Option Rat)) (k name : String)
    (ov : Option Rat) (hne : name ≠ k) :
    hmGet (m ++ [(k, ov)]) name = hmGet m name := by
  unfold hmGet
  rw [List.reverse_append]
  have hb : ((k, ov).1 == name) = false := beq_eq_false_iff_ne.mpr (Ne.symm hne)
  simp [List.find?_cons_of_neg, hb]

theorem find?_key_filter_ne (l : List (String × Option Rat)) (k name : String)
    (hne : name ≠ k) :
    (l.filter (fun p => !(p.1 == k))).find? (fun p => p.1 == name) =
      l.find? (fun p => p.1 == name) := by
  induction l with
  | nil => rfl
  | cons x xs ih =>
    by_cases hxk : x.1 = k
    · have h1 : (x.1 == k) = true := beq_iff_eq.mpr hxk
      have h2 : (x.1 == name) = false := beq_eq_false_iff_ne.mpr (hxk ▸ Ne.symm hne)
      simp [List.filter_cons, h1, List.find?_cons, h2, ih]
    · have h1 : (x.1 == k) = false := beq_eq_false_iff_ne.mpr hxk
      by_cases hxn : x.1 = name
      · have h2 : (x.1 == name) = true := beq_iff_eq.mpr hxn
        simp [List.filter_cons, h1, List.find?_cons, h2]
      · have h2 : (x.1 == name) = false := beq_eq_false_iff_ne.mpr hxn
        simp [List.filter_cons, h1, List.find?_cons, h2, ih]

theorem hmGet_filter_ne (m : List (String × Option Rat)) (k name : String)
    (hne : name ≠ k) :
    hmGet (m.filter (fun p => !(p.1 == k))) name = hmGet m name := by
  unfold hmGet
  rw [← List.filter_reverse, find?_key_filter_ne m.reverse k name hne]

theorem mapFromFields_append_single (inner : List (String × Json))
    (m : List (String × Option Rat)) (k : String) (w : Json) (ov : Option Rat)
    (hm : mapFromFields inner = some m) (hw : valOpt w = some ov) :
    mapFromFields (inner ++ [(k, w)]) = some (m ++ [(k, ov)]) := by
  induction inner generalizing m with
  | nil =>
    simp [mapFromFields] at hm
    subst hm
    simp [mapFromFields, hw]
  | cons x xs ih =>
    obtain ⟨xk, xv⟩ := x
    rw [mapFromFields] at hm
    rcases hv : valOpt xv with _ | ov1 <;> rw [hv] at hm
    · simp at hm
    · rcases hrest : mapFromFields xs with _ | m1 <;> rw [hrest] at hm
      · simp at hm
      · simp only [Option.some.injEq] at hm
        subst hm
        rw [List.cons_append, mapFromFields, hv, ih m1 hrest]
        rfl

theorem mapFromFields_filter (inner : List (String × Json))
    (m : List (String × Option Rat)) (k : String)
    (hm : mapFromFields inner = some m) :
    mapFromFields (inner.filter (fun p => !(p.1 == k))) =
      some (m.filter (fun p => !(p.1 == k))) := by
  induction inner generalizing m with
  | nil =>
    simp [mapFromFields] at hm
    subst hm
    rfl
  | cons x xs ih =>
    obtain ⟨xk, xv⟩ := x
    rw [mapFromFields] at hm
    rcases hv : valOpt xv with _ | ov1 <;> rw [hv] at hm
    · simp at hm
    · rcases hrest : mapFromFields xs with _ | m1 <;> rw [hrest] at hm
      · simp at hm
      · simp only [Option.some.injEq] at hm
        subst hm
        by_cases hxk : xk = k
        · have h1 : (xk == k) = true := beq_iff_eq.mpr hxk
          simp [List.filter_cons, h1, ih m1 hrest]
        · have h1 : (xk == k) = false := beq_eq_false_iff_ne.mpr hxk
          simp only [List.filter_cons, h1, Bool.not_false, if_pos]
          rw [mapFromFields, hv, ih m1 hrest]

theorem fromJson_mkBody (msg : String) (inner : List (String × Json))
    (m : List (String × Option Rat)) (dev : Nat)
    (hm : mapFromFields inner = some m) (hdev : dev ≤ 255) :
    BodyValues.fromJson (mkBody msg inner dev) = some ⟨msg, m, dev⟩ := by
  unfold BodyValues.fromJson mkBody getField
  have hden : ((dev : Rat)).den = 1 := Rat.den_natCast dev
  have hnum : ((dev : Rat)).num = (dev : Int) := Rat.num_natCast dev
  simp [List.find?, jStr, jMap, hm, jU8, hden, hnum, hdev]

theorem measureField_congr (m1 m2 : List (String × Option Rat)) (name : String)
    (h : hmGet m1 name = hmGet m2 name) :
    measureField m1 name = measureField m2 name := by
  unfold measureField
  rw [h]

theorem buildRecord_ext (m1 m2 : List (String × Option Rat)) (msg1 msg2 : String)
    (dev : Nat) (h : ∀ n ∈ measurementNames, hmGet m1 n = hmGet m2 n) :
    buildRecord ⟨msg1, m1, dev⟩ = buildRecord ⟨msg2, m2, dev⟩ := by
  unfold buildRecord
  simp only
  rw [measureField_congr m1 m2 "temperature" (h _ (by decide)),
      measureField_congr m1 m2 "humidity" (h _ (by decide)),
      measureField_congr m1 m2 "wind_speed" (h _ (by decide)),
      measureField_congr m1 m2 "wind_direction" (h _ (by decide)),
      measureField_congr m1 m2 "rain_intensity" (h _ (by decide)),
      measureField_congr m1 m2 "rain_accumulation" (h _ (by decide))]

/-- C10: on a status-200 body that parses with an empty `message`, adding
a key-value pair under a name other than the six measurement names to
`locality_weather_data`, or removing such pairs, leaves the interpreter's
result unchanged; the result stays a successful record, never an error. -/
theorem c10_unknown_keys_ignored (inner : List (String × Json))
    (m : List (String × Option Rat)) (k : String) (w : Json) (ov : Option Rat)
    (dev : Nat) (hk : k ∉ measurementNames) (hm : mapFromFields inner = some m)
    (hw : valOpt w = some ov) (hdev : dev ≤ 255) :
    process_payload 200 (some (mkBody "" (inner ++ [(k, w)]) dev)) =
      process_payload 200 (some (mkBody "" inner dev)) ∧
    process_payload 200 (some (mkBody "" (inner.filter (fun p => !(p.1 == k))) dev)) =
      process_payload 200 (some (mkBody "" inner dev)) ∧
    ∃ r, process_payload 200 (some (mkBody "" inner dev)) = Except.ok r := by
  have hne : ∀ n, n ∈ measurementNames → n ≠ k := fun n hn he => hk (he ▸ hn)
  have hj0 : BodyValues.fromJson (mkBody "" inner dev) = some ⟨"", m, dev⟩ :=
    fromJson_mkBody "" inner m dev hm hdev
  have hj1 : BodyValues.fromJson (mkBody "" (inner ++ [(k, w)]) dev) =
      some ⟨"", m ++ [(k, ov)], dev⟩ :=
    fromJson_mkBody "" _ _ dev (mapFromFields_append_single inner m k w ov hm hw) hdev
  have hj2 : BodyValues.fromJson (mkBody "" (inner.filter (fun p => !(p.1 == k))) dev) =
      some ⟨"", m.filter (fun p => !(p.1 == k)), dev⟩ :=
    fromJson_mkBody "" _ _ dev (mapFromFields_filter inner m k hm) hdev
  have hb1 : buildRecord ⟨"", m ++ [(k, ov)], dev⟩ = buildRecord ⟨"", m, dev⟩ :=
    buildRecord_ext _ _ _ _ dev
      (fun n hn => hmGet_append_single_ne m k n ov (hne n hn))
  have hb2 : buildRecord ⟨"", m.filter (fun p => !(p.1 == k)), dev⟩ =
      buildRecord ⟨"", m, dev⟩ :=
    buildRecord_ext _ _ _ _ dev
      (fun n hn => hmGet_filter_ne m k n (hne n hn))
  refine ⟨?_, ?_, ⟨buildRecord ⟨"", m, dev⟩, ?_⟩⟩
  · simp [process_payload, hj1, hj0, process_parsed, hb1]
  · simp [process_payload, hj2, hj0, process_parsed, hb2]
  · simp [process_payload, hj0, process_parsed]

/-- Witness for C10 at a concrete body: appending the unknown key
`"extra"` and filtering it out both leave the result unchanged. -/
theorem c10_unknown_keys_ignored_witness :
    (process_payload 200 (some (mkBody ""
        ([("temperature", Json.num 25)] ++ [("extra", Json.null)]) 3)) =
      process_payload 200 (some (mkBody "" [("temperature", Json.num 25)] 3)) ∧
    process_payload 200 (some (mkBody ""
        (List.filter (fun p => !(p.1 == "extra")) [("temperature", Json.num 25)]) 3)) =
      process_payload 200 (some (mkBody "" [("temperature", Json.num 25)] 3)) ∧
    ∃ r, process_payload 200 (some (mkBody "" [("temperature", Json.num 25)] 3)) =
      Except.ok r) :=
  c10_unknown_keys_ignored [("temperature", Json.num 25)] [("temperature", some 25)]
    "extra" Json.null none 3 (by decide) (by decide) (by decide) (by decide)

/-- C7: `LocalityId` construction fails for the empty string and for
every string absent from the directory, with the same (only) error kind
`InvalidLocalityId` in both cases; it succeeds for `"ZWL003467"`, whose
display name is `"Bengaluru Banashankari"` and whose coordinates are
`(12.936787, 77.556079)`. -/
theorem c7_locality_id_construction :
    LocalityId.from_string "" = Except.error ⟨⟩ ∧
    (∀ s : String, area_name s = none → LocalityId.from_string s = Except.error ⟨⟩) ∧
    LocalityId.from_string "NOT_A_CODE" = Except.error ⟨⟩ ∧
    LocalityId.from_string "ZWL003467" = Except.ok ⟨"ZWL003467"⟩ ∧
    LocalityId.locality_name ⟨"ZWL003467"⟩ = some "Bengaluru Banashankari" ∧
    LocalityId.locality_lat_long ⟨"ZWL003467"⟩ = some (12.936787, 77.556079) := by
  refine ⟨rfl, ?_, rfl, rfl, by decide, ?_⟩
  · intro s hs
    unfold LocalityId.from_string from_str_dir
    by_cases he : s.isEmpty
    · simp [he]
    · unfold area_name at hs
      rcases hf : localityTable.find? (fun e => e.1 == s) with _ | e
      · simp [he, hf]
      · rw [hf] at hs
        simp at hs
  · have h1 : (12.936787 : Rat) = mkRat 12936787 1000000 := by
      rw [show (12.936787 : Rat) = Rat.ofScientific 12936787 true 6 from rfl,
          Rat.ofScientific_true_def]
      norm_num
    have h2 : (77.556079 : Rat) = mkRat 77556079 1000000 := by
      rw [show (77.556079 : Rat) = Rat.ofScientific 77556079 true 6 from rfl,
          Rat.ofScientific_true_def]
      norm_num
    rw [LocalityId.locality_lat_long, h1, h2]
    decide

/-- Witness for C7's universally quantified conjunct, at the concrete
absent string `"NOT_A_CODE"`. -/
theorem c7_locality_id_construction_witness :
    LocalityId.from_string "NOT_A_CODE" = Except.error ⟨⟩ :=
  c7_locality_id_construction.2.1 "NOT_A_CODE" (by decide)

theorem noDups_countP_le_one (L : List Nat) (v : Nat) (h : noDups L = true) :
    L.countP (fun x => x == v) ≤ 1 := by
  induction L with
  | nil => simp
  | cons x xs ih =>
    rw [noDups, Bool.and_eq_true, Bool.not_eq_true'] at h
    obtain ⟨h1, h2⟩ := h
    by_cases hxv : (x == v) = true
    · have hv : x = v := by simpa using hxv
      have hz : xs.countP (fun y => y == v) = 0 := by
        rw [List.countP_eq_zero]
        intro a ha hav
        have hax : a = x := by
          have : a = v := by simpa using hav
          omega
        have hnotmem : x ∉ xs := by simpa using h1
        exact hnotmem (hax ▸ ha)
      simp [List.countP_cons, hxv, hz]
    · have hxv0 : (x == v) = false := by simpa using hxv
      simp [List.countP_cons, hxv0, ih h2]

theorem countP_key_le_codes (c : String) :
    localityTable.countP (fun e => e.1 == c) ≤
      (localityTable.map (fun e => codeNum e.1)).countP (fun x => x == codeNum c) := by
  rw [List.countP_map]
  refine List.countP_mono_left (fun e _ hp => ?_)
  have he : e.1 = c := by simpa using hp
  simp [Function.comp, he]

theorem localityTable_key_codes_nodups :
    noDups (localityTable.map (fun e => codeNum e.1)) = true := by decide

/-- C8: every `LocalityId` accepted by the validator has a display name
and coordinates (the accessors never return `None` for it), and its code
matches exactly one directory entry. -/
theorem c8_validated_accessors (s : String) (l : LocalityId)
    (h : LocalityId.from_string s = Except.ok l) :
    (LocalityId.locality_name l).isSome = true ∧
    (LocalityId.locality_lat_long l).isSome = true ∧
    localityTable.countP (fun e => e.1 == l.code) = 1 := by
  unfold LocalityId.from_string from_str_dir at h
  by_cases he : s.isEmpty
  · simp [he] at h
  · rw [if_neg he] at h
    rcases hf : localityTable.find? (fun e => e.1 == s) with _ | e
    · rw [hf] at h
      simp at h
    · rw [hf] at h
      simp only [Option.map_some'] at h
      have hl : l = ⟨e.1⟩ := by
        cases h
        rfl
      subst hl
      have hmem : e ∈ localityTable := List.mem_of_find?_eq_some hf
      have hself : ((fun x => x.1 == e.1) e) = true := by simp
      have hfind : (localityTable.find? (fun x => x.1 == e.1)).isSome = true :=
        List.find?_isSome.mpr ⟨e, hmem, hself⟩
      refine ⟨?_, ?_, ?_⟩
      · unfold LocalityId.locality_name area_name
        simp only [Option.isSome_map']
        exact hfind
      · unfold LocalityId.locality_lat_long area_lat_long
        simp only [Option.isSome_map']
        exact hfind
      · have hge : 0 < localityTable.countP (fun x => x.1 == e.1) :=
          List.countP_pos_iff.mpr ⟨e, hmem, hself⟩
        have hle : localityTable.countP (fun x => x.1 == e.1) ≤ 1 :=
          le_trans (countP_key_le_codes e.1)
            (noDups_countP_le_one _ _ localityTable_key_codes_nodups)
        have hred : localityTable.countP (fun x => x.1 == (LocalityId.mk e.1).code) =
            localityTable.countP (fun x => x.1 == e.1) := rfl
        rw [hred]
        omega

/-- Witness for C8 at the validated identifier `"ZWL003467"`. -/
theorem c8_validated_accessors_witness :
    (LocalityId.locality_name ⟨"ZWL003467"⟩).isSome = true ∧
    (LocalityId.locality_lat_long ⟨"ZWL003467"⟩).isSome = true ∧
    localityTable.countP (fun e => e.1 == (LocalityId.mk "ZWL003467").code) = 1 :=
  c8_validated_accessors "ZWL003467" ⟨"ZWL003467"⟩ rfl

/-- C9 counterexample: the claim that exactly one directory key deviates
from the `ZWL######` pattern is false — the number of deviating keys
is zero, not one. -/
theorem c9_exception_count_not_one :
    ¬ (localityTable.countP (fun e => !(isZWLCode e.1)) = 1) := by
  have h : localityTable.countP (fun e => !(isZWLCode e.1)) = 0 := by decide
  omega

/-- C9 amended: every key in the directory is a 9-character `ZWL` code
followed by six digits, without exception; the irregular datum preserved
verbatim in the source is the display name `"s Mall, Bhopal"` of entry
`ZWL003417`, not a key. -/
theorem c9_all_keys_zwl :
    localityTable.all (fun e => isZWLCode e.1) = true ∧
    area_name "ZWL003417" = some "s Mall, Bhopal" :=
  ⟨by decide, by decide⟩
